import Mathlib

/-!
# LXePETSim: material/surface tables and the physics-list selectors

A shallow embedding of `resource/XenonMaterials.cc` and
`resource/XenonPhysicsList.cc`.

Modelling conventions

* A `G4double` value is a finite double, embedded as the rational it denotes.
  Constants and their products with unit constants are taken exactly. Where
  the sources add doubles and branch on the result (the sum test of the
  combined setter), every addition is rounded as IEEE 754 binary64 does: to
  the nearest double, ties to the even significand, overflow giving an
  infinity. NaN and infinite arguments are outside the embedding.
* The unit constants of `G4SystemOfUnits.hh` (`eV`, `cm`, ...) belong to the
  toolkit, so every definition that uses one takes the system of units as a
  parameter.
* A `G4MaterialPropertiesTable` is a finite map from property names to curves;
  it is embedded as a lookup function, so that two tables are equal exactly
  when every key reads back the same.
* `G4Exception(..., FatalException, ...)` ends the run. A call that raises it
  yields `Outcome.fatal`, carrying the exception and the configuration as it
  stood at the moment the exception was raised.
-/

namespace LXePETSim

/-! ## Toolkit data -/

/-- The toolkit's floating-point scalar: a finite double, embedded as the
rational it denotes. -/
abbrev G4double := ℚ

/-- The unit constants of `G4SystemOfUnits.hh` that the sources multiply by. -/
structure SystemOfUnits where
  eV : G4double
  keV : G4double
  cm : G4double
  m : G4double
  ns : G4double
  g : G4double
  mole : G4double
  cm3 : G4double
  kelvin : G4double
  atmosphere : G4double

/-- A `G4ThreeVector`: three scalars read with `x()`, `y()`, `z()`. -/
structure G4ThreeVector where
  x : G4double
  y : G4double
  z : G4double
deriving DecidableEq

/-- The result of an arithmetic operation on finite doubles: a finite double or,
after an overflow, one of the two infinities. -/
inductive MachineDouble where
  | finite (q : G4double)
  | posInf
  | negInf
deriving DecidableEq

/-- The position of the leading binary digit of `n` (0 for `n < 2`), found by halving; the
first argument bounds the number of halvings and `n` itself is always enough. -/
def bitLength : Nat → Nat → Nat
  | 0, _ => 0
  | fuel + 1, n => if n < 2 then 0 else bitLength fuel (n / 2) + 1

/-- The binary exponent of the positive rational `n / d`: the integer `k` with
`2 ^ k ≤ n / d < 2 ^ (k + 1)`. -/
def floorLog2 (n d : Nat) : Int :=
  let k : Int := (bitLength n n : Int) - (bitLength d d : Int)
  if (if 0 ≤ k then decide (2 ^ k.toNat * d ≤ n) else decide (d ≤ n * 2 ^ (-k).toNat)) = true
  then k else k - 1

/-- The integer nearest to `n / d`, a tie going to the even one. -/
def roundHalfEven (n d : Nat) : Nat :=
  let q := n / d
  let r := n % d
  if 2 * r < d then q else if d < 2 * r then q + 1 else if q % 2 = 0 then q else q + 1

/-- The binary64 value nearest to the positive rational `n / d`, or `none` when
it is beyond the largest double: the significand has 53 bits, the exponent is
at least -1022 (below that the spacing stays `2 ^ -1074`), and a result of
`2 ^ 1024` or more overflows. -/
def roundMagnitude (n d : Nat) : Option G4double :=
  let e : Int := max (floorLog2 n d) (-1022)
  let s : Int := e - 52
  let m : Nat :=
    if 0 ≤ s then roundHalfEven n (d * 2 ^ s.toNat) else roundHalfEven (n * 2 ^ (-s).toNat) d
  if 0 ≤ s then
    (if 2 ^ 1024 ≤ m * 2 ^ s.toNat then none else some (mkRat (m * 2 ^ s.toNat) 1))
  else some (mkRat m (2 ^ (-s).toNat))

/-- IEEE 754 binary64 rounding of an exact result, to nearest with ties to even. -/
def roundToDouble (q : ℚ) : MachineDouble :=
  if q.num = 0 then MachineDouble.finite 0
  else
    match roundMagnitude q.num.natAbs q.den with
    | some r => MachineDouble.finite (if 0 < q.num then r else -r)
    | none => if 0 < q.num then MachineDouble.posInf else MachineDouble.negInf

namespace MachineDouble

/-- The double addition `a + b` of an intermediate result and a finite double:
the exact sum, rounded; an infinity stays what it is. -/
def add : MachineDouble → G4double → MachineDouble
  | finite a, b => roundToDouble (a + b)
  | posInf, _ => posInf
  | negInf, _ => negInf

/-- The double comparison `a > b` against a finite double. -/
def gt : MachineDouble → G4double → Bool
  | finite a, b => decide (b < a)
  | posInf, _ => true
  | negInf, _ => false

end MachineDouble

/-- The value of the C++ expression `spike + lobe + backscatter` on doubles:
`(spike + lobe) + backscatter`, each addition rounded. -/
def computedSum (spike lobe backscatter : G4double) : MachineDouble :=
  (roundToDouble (spike + lobe)).add backscatter

/-- A property curve: the (photon energy, value) pairs in insertion order. -/
abbrev G4MaterialPropertyVector := List (G4double × G4double)

/-- The curve built by `AddProperty(key, energies, values, n)`: the first `n`
entries of the two arrays, paired index by index. -/
def mkPropertyVector (photon_energies property_values : List G4double) (numEntries : Nat) :
    G4MaterialPropertyVector :=
  (photon_energies.zip property_values).take numEntries

/-- A `G4MaterialPropertiesTable`: curves keyed by name (`MP`) and constant
properties keyed by name (`MCP`). -/
structure G4MaterialPropertiesTable where
  MP : String → Option G4MaterialPropertyVector
  MCP : String → Option G4double

namespace G4MaterialPropertiesTable

/-- The table made by `new G4MaterialPropertiesTable()`: no entry at all. -/
def empty : G4MaterialPropertiesTable :=
  { MP := fun _ => none, MCP := fun _ => none }

/-- The lookup `GetProperty(key)`: the curve stored under `key`, if any. -/
def GetProperty (t : G4MaterialPropertiesTable) (key : String) :
    Option G4MaterialPropertyVector :=
  t.MP key

/-- The array form `AddProperty(key, energies, values, n)`: the entry for `key`
becomes the curve built from the arrays. -/
def AddProperty (t : G4MaterialPropertiesTable) (key : String)
    (photon_energies property_values : List G4double) (numEntries : Nat) :
    G4MaterialPropertiesTable :=
  { t with MP := fun k =>
      if k = key then some (mkPropertyVector photon_energies property_values numEntries)
      else t.MP k }

/-- The pointer form `AddProperty(key, vector)`, as used with the result of a
`GetProperty` on another table: the entry for `key` becomes that result. -/
def AddPropertyVector (t : G4MaterialPropertiesTable) (key : String)
    (opv : Option G4MaterialPropertyVector) : G4MaterialPropertiesTable :=
  { t with MP := fun k => if k = key then opv else t.MP k }

/-- The call `AddConstProperty(key, value)`. -/
def AddConstProperty (t : G4MaterialPropertiesTable) (key : String) (value : G4double) :
    G4MaterialPropertiesTable :=
  { t with MCP := fun k => if k = key then some value else t.MCP k }

/-- The call `RemoveProperty(key)`: the entry for `key` is erased. -/
def RemoveProperty (t : G4MaterialPropertiesTable) (key : String) :
    G4MaterialPropertiesTable :=
  { t with MP := fun k => if k = key then none else t.MP k }

end G4MaterialPropertiesTable

/-- A chemical element: either declared with `new G4Element(name, symbol, Z, A)`
or fetched from the toolkit's database with `FindOrBuildElement(symbol)`. -/
inductive G4Element where
  | mk (name symbol : String) (Zeff Aeff : G4double)
  | nist (symbol : String)
deriving DecidableEq

/-- The physical state argument of `G4Material`. -/
inductive G4State where
  | kStateUndefined
  | kStateSolid
  | kStateLiquid
  | kStateGas
deriving DecidableEq

/-- The two overloads of `G4Material::AddElement`: a mass fraction or a number
of atoms. -/
inductive Amount where
  | fraction (f : G4double)
  | nAtoms (n : Int)
deriving DecidableEq

/-- A material of the toolkit's registry. `fromNist` marks a material fetched
with `FindOrBuildMaterial`, whose composition is the database's. -/
structure G4Material where
  name : String
  fromNist : Bool
  density : Option G4double
  nComponents : Nat
  state : G4State
  temp : Option G4double
  pressure : Option G4double
  elements : List (G4Element × Amount)
  mpt : Option G4MaterialPropertiesTable

/-- The optical surface models of the toolkit. -/
inductive G4OpticalSurfaceModel where
  | glisur
  | unified
deriving DecidableEq

/-- The surface finishes used by the sources. -/
inductive G4OpticalSurfaceFinish where
  | polished
  | ground
deriving DecidableEq

/-- The surface types used by the sources. -/
inductive G4SurfaceType where
  | dielectric_metal
  | dielectric_dielectric
deriving DecidableEq

/-- A `G4OpticalSurface` with its attached property table. Every surface the
builder creates gets its table before the builder returns, so the table is a
plain field. -/
structure G4OpticalSurface where
  name : String
  model : G4OpticalSurfaceModel
  finish : G4OpticalSurfaceFinish
  type : G4SurfaceType
  value : G4double
  theMaterialPropertiesTable : G4MaterialPropertiesTable

namespace G4OpticalSurface

/-- The accessor `GetMaterialPropertiesTable()`. -/
def GetMaterialPropertiesTable (s : G4OpticalSurface) : G4MaterialPropertiesTable :=
  s.theMaterialPropertiesTable

/-- The mutator `SetMaterialPropertiesTable(table)`. -/
def SetMaterialPropertiesTable (s : G4OpticalSurface) (t : G4MaterialPropertiesTable) :
    G4OpticalSurface :=
  { s with theMaterialPropertiesTable := t }

end G4OpticalSurface

/-- The arguments of a `G4Exception` call of severity `FatalException`. -/
structure G4ExceptionRecord where
  originOfException : String
  exceptionCode : String
  description : String
deriving DecidableEq

/-- The result of a configuration call: it returns normally with the new
configuration, or it raises a fatal exception, in which case the run ends with
the configuration as it stood when the exception was raised. -/
inductive Outcome (σ : Type) where
  | ok (s : σ)
  | fatal (e : G4ExceptionRecord) (s : σ)
deriving DecidableEq

namespace Outcome

/-- Whether the call returned normally. -/
def isOk {σ : Type} : Outcome σ → Bool
  | ok _ => true
  | fatal _ _ => false

/-- Whether the call raised a fatal exception. -/
def isFatal {σ : Type} : Outcome σ → Bool
  | ok _ => false
  | fatal _ _ => true

/-- The configuration the call leaves behind, on either path. -/
def state {σ : Type} : Outcome σ → σ
  | ok s => s
  | fatal _ s => s

/-- The exception raised, if any. -/
def exception? {σ : Type} : Outcome σ → Option G4ExceptionRecord
  | ok _ => none
  | fatal e _ => some e

/-- Sequencing of configuration calls: the run stops at the first fatal one. -/
def andThen {σ : Type} (o : Outcome σ) (f : σ → Outcome σ) : Outcome σ :=
  match o with
  | ok s => f s
  | fatal e s => fatal e s

end Outcome

/-! ## `XenonMaterials.cc` -/

/-- The state `Xenon1tMaterials::DefineMaterials` populates: the toolkit's
element and material registries and the four optical surfaces the class keeps
pointers to. -/
structure Xenon1tMaterials where
  elementTable : List G4Element
  materialTable : List G4Material
  pLXeTeflonOpticalSurface : G4OpticalSurface
  pLXeTeflonUnpolishedOpticalSurface : G4OpticalSurface
  pGXeTeflonOpticalSurface : G4OpticalSurface
  pGXeTeflonUnpolishedOpticalSurface : G4OpticalSurface

set_option linter.unusedVariables false in
/-- The body of `Xenon1tMaterials::DefineMaterials`, with the three arguments
of its signature. -/
def DefineMaterials (u : SystemOfUnits) (pWABSL : G4double) (pEPTFEReflectivity : G4double)
    (pGdConcentration : G4double) : Xenon1tMaterials :=
  -- ========== Elements ==========
  let Xe := G4Element.mk "Xenon" "Xe" 54 (131.293 * u.g / u.mole)
  let H := G4Element.mk "Hydrogen" "H" 1 (1.0079 * u.g / u.mole)
  let C := G4Element.mk "Carbon" "C" 6 (12.011 * u.g / u.mole)
  let N := G4Element.mk "Nitrogen" "N" 7 (14.007 * u.g / u.mole)
  let O := G4Element.mk "Oxygen" "O" 8 (15.999 * u.g / u.mole)
  let F := G4Element.mk "Fluorine" "F" 9 (18.998 * u.g / u.mole)
  let Fe := G4Element.mk "Iron" "Fe" 26 (55.85 * u.g / u.mole)
  let Co := G4Element.nist "Co"
  -- ==== Air ====
  let nEntries : Nat := 32
  let PhotonEnergy : List G4double :=
    [2.034 * u.eV, 2.068 * u.eV, 2.103 * u.eV, 2.139 * u.eV, 2.177 * u.eV, 2.216 * u.eV,
     2.256 * u.eV, 2.298 * u.eV, 2.341 * u.eV, 2.386 * u.eV, 2.433 * u.eV, 2.481 * u.eV,
     2.532 * u.eV, 2.585 * u.eV, 2.640 * u.eV, 2.697 * u.eV, 2.757 * u.eV, 2.820 * u.eV,
     2.885 * u.eV, 2.954 * u.eV, 3.026 * u.eV, 3.102 * u.eV, 3.181 * u.eV, 3.265 * u.eV,
     3.353 * u.eV, 3.446 * u.eV, 3.545 * u.eV, 3.649 * u.eV, 3.760 * u.eV, 3.877 * u.eV,
     4.002 * u.eV, 4.136 * u.eV]
  let RefractiveIndex2 : List G4double :=
    [1.00, 1.00, 1.00, 1.00, 1.00, 1.00, 1.00, 1.00, 1.00, 1.00, 1.00,
     1.00, 1.00, 1.00, 1.00, 1.00, 1.00, 1.00, 1.00, 1.00, 1.00, 1.00,
     1.00, 1.00, 1.00, 1.00, 1.00, 1.00, 1.00, 1.00, 1.00, 1.00]
  let myMPT2 := G4MaterialPropertiesTable.empty
  let myMPT2 := myMPT2.AddProperty "RINDEX" PhotonEnergy RefractiveIndex2 nEntries
  let Air : G4Material :=
    { name := "G4_AIR", fromNist := true, density := none, nComponents := 0,
      state := G4State.kStateUndefined, temp := none, pressure := none, elements := [],
      mpt := some myMPT2 }
  -- ==== Vacuum ====
  let RefractiveIndex3 : List G4double :=
    [1.00, 1.00, 1.00, 1.00, 1.00, 1.00, 1.00, 1.00, 1.00, 1.00, 1.00,
     1.00, 1.00, 1.00, 1.00, 1.00, 1.00, 1.00, 1.00, 1.00, 1.00, 1.00,
     1.00, 1.00, 1.00, 1.00, 1.00, 1.00, 1.00, 1.00, 1.00, 1.00]
  let myMPT3 := G4MaterialPropertiesTable.empty
  let myMPT3 := myMPT3.AddProperty "RINDEX" PhotonEnergy RefractiveIndex3 nEntries
  let Vacuum : G4Material :=
    { name := "Vacuum", fromNist := false, density := some (1.e-20 * u.g / u.cm3),
      nComponents := 2, state := G4State.kStateGas, temp := none, pressure := none,
      elements := [(N, Amount.fraction 0.755), (O, Amount.fraction 0.245)],
      mpt := some myMPT3 }
  -- ==== Steel ====
  let Steel : G4Material :=
    { name := "Steel", fromNist := false, density := some (7.7 * u.g / u.cm3),
      nComponents := 3, state := G4State.kStateUndefined, temp := none, pressure := none,
      elements := [(C, Amount.fraction 0.04), (Fe, Amount.fraction 0.88),
                   (Co, Amount.fraction 0.08)],
      mpt := none }
  -- ==== Liquid Xenon ====
  let iNbEntries : Nat := 3
  let pdLXePhotonMomentum : List G4double := [6.91 * u.eV, 6.98 * u.eV, 7.05 * u.eV]
  let pdLXeScintillation : List G4double := [0.1, 1.0, 0.1]
  let pdLXeRefractiveIndex : List G4double := [1.63, 1.61, 1.58]
  let pdLXeAbsorbtionLength : List G4double := [100. * u.cm, 100. * u.cm, 100. * u.cm]
  let pdLXeScatteringLength : List G4double := [30. * u.cm, 30. * u.cm, 30. * u.cm]
  let pLXePropertiesTable := G4MaterialPropertiesTable.empty
  let pLXePropertiesTable :=
    pLXePropertiesTable.AddProperty "FASTCOMPONENT" pdLXePhotonMomentum pdLXeScintillation iNbEntries
  let pLXePropertiesTable :=
    pLXePropertiesTable.AddProperty "SLOWCOMPONENT" pdLXePhotonMomentum pdLXeScintillation iNbEntries
  let pLXePropertiesTable :=
    pLXePropertiesTable.AddProperty "RINDEX" pdLXePhotonMomentum pdLXeRefractiveIndex iNbEntries
  let pLXePropertiesTable :=
    pLXePropertiesTable.AddProperty "ABSLENGTH" pdLXePhotonMomentum pdLXeAbsorbtionLength iNbEntries
  let pLXePropertiesTable :=
    pLXePropertiesTable.AddProperty "RAYLEIGH" pdLXePhotonMomentum pdLXeScatteringLength iNbEntries
  let pLXePropertiesTable := pLXePropertiesTable.AddConstProperty "SCINTILLATIONYIELD" (0. / u.keV)
  let pLXePropertiesTable := pLXePropertiesTable.AddConstProperty "RESOLUTIONSCALE" 0
  let pLXePropertiesTable := pLXePropertiesTable.AddConstProperty "FASTTIMECONSTANT" (3. * u.ns)
  let pLXePropertiesTable := pLXePropertiesTable.AddConstProperty "SLOWTIMECONSTANT" (27. * u.ns)
  let pLXePropertiesTable := pLXePropertiesTable.AddConstProperty "YIELDRATIO" 1.0
  let pLXePropertiesTable := pLXePropertiesTable.AddConstProperty "TOTALNUM_INT_SITES" (-1)
  let LXe : G4Material :=
    { name := "LXe", fromNist := false, density := some (2.862 * u.g / u.cm3),
      nComponents := 1, state := G4State.kStateLiquid, temp := some (177.05 * u.kelvin),
      pressure := some (1.5 * u.atmosphere), elements := [(Xe, Amount.nAtoms 1)],
      mpt := some pLXePropertiesTable }
  -- ==== Gaseous Xenon ====
  let pdGXePhotonMomentum : List G4double := [6.91 * u.eV, 6.98 * u.eV, 7.05 * u.eV]
  let pdGXeScintillation : List G4double := [0.1, 1.0, 0.1]
  let pdGXeRefractiveIndex : List G4double := [1.00, 1.00, 1.00]
  let pdGXeAbsorbtionLength : List G4double := [100 * u.m, 100 * u.m, 100 * u.m]
  let pdGXeScatteringLength : List G4double := [100 * u.m, 100 * u.m, 100 * u.m]
  let pGXePropertiesTable := G4MaterialPropertiesTable.empty
  let pGXePropertiesTable :=
    pGXePropertiesTable.AddProperty "FASTCOMPONENT" pdGXePhotonMomentum pdGXeScintillation iNbEntries
  let pGXePropertiesTable :=
    pGXePropertiesTable.AddProperty "SLOWCOMPONENT" pdGXePhotonMomentum pdGXeScintillation iNbEntries
  let pGXePropertiesTable :=
    pGXePropertiesTable.AddProperty "RINDEX" pdGXePhotonMomentum pdGXeRefractiveIndex iNbEntries
  let pGXePropertiesTable :=
    pGXePropertiesTable.AddProperty "ABSLENGTH" pdGXePhotonMomentum pdGXeAbsorbtionLength iNbEntries
  let pGXePropertiesTable :=
    pGXePropertiesTable.AddProperty "RAYLEIGH" pdGXePhotonMomentum pdGXeScatteringLength iNbEntries
  let pGXePropertiesTable := pGXePropertiesTable.AddConstProperty "SCINTILLATIONYIELD" (0. / u.keV)
  let pGXePropertiesTable := pGXePropertiesTable.AddConstProperty "RESOLUTIONSCALE" 0
  let pGXePropertiesTable := pGXePropertiesTable.AddConstProperty "FASTTIMECONSTANT" (3. * u.ns)
  let pGXePropertiesTable := pGXePropertiesTable.AddConstProperty "SLOWTIMECONSTANT" (27. * u.ns)
  let pGXePropertiesTable := pGXePropertiesTable.AddConstProperty "YIELDRATIO" 1.0
  let GXe : G4Material :=
    { name := "GXe", fromNist := false, density := some (0.005887 * u.g / u.cm3),
      nComponents := 1, state := G4State.kStateGas, temp := some (173.15 * u.kelvin),
      pressure := some (1.5 * u.atmosphere), elements := [(Xe, Amount.nAtoms 1)],
      mpt := some pGXePropertiesTable }
  -- ==== Teflon ====
  let pdTeflonPhotonMomentum : List G4double := [6.91 * u.eV, 6.98 * u.eV, 7.05 * u.eV]
  let pdTeflonRefractiveIndex : List G4double := [1.63, 1.61, 1.58]
  let pdTeflonReflectivity : List G4double := [0.99, 0.99, 0.99]
  let pdTeflonSpecularLobe : List G4double := [0.01, 0.01, 0.01]
  let pdTeflonSpecularSpike : List G4double := [0.01, 0.01, 0.01]
  let pdTeflonBackscatter : List G4double := [0.01, 0.01, 0.01]
  let pdTeflonEfficiency : List G4double := [1.0, 1.0, 1.0]
  let pdTeflonAbsorbtionLength : List G4double := [0.1 * u.cm, 0.1 * u.cm, 0.1 * u.cm]
  let pTeflonPropertiesTable := G4MaterialPropertiesTable.empty
  let pTeflonPropertiesTable :=
    pTeflonPropertiesTable.AddProperty "RINDEX" pdTeflonPhotonMomentum pdTeflonRefractiveIndex iNbEntries
  let pTeflonPropertiesTable :=
    pTeflonPropertiesTable.AddProperty "REFLECTIVITY" pdTeflonPhotonMomentum pdTeflonReflectivity iNbEntries
  let pTeflonPropertiesTable :=
    pTeflonPropertiesTable.AddProperty "ABSLENGTH" pdTeflonPhotonMomentum pdTeflonAbsorbtionLength iNbEntries
  let pTeflonPropertiesTable :=
    pTeflonPropertiesTable.AddProperty "SPECULARLOBECONSTANT" pdTeflonPhotonMomentum
      pdTeflonSpecularLobe iNbEntries
  let pTeflonPropertiesTable :=
    pTeflonPropertiesTable.AddProperty "SPECULARSPIKECONSTANT" pdTeflonPhotonMomentum
      pdTeflonSpecularSpike iNbEntries
  let pTeflonPropertiesTable :=
    pTeflonPropertiesTable.AddProperty "BACKSCATTERCONSTANT" pdTeflonPhotonMomentum
      pdTeflonBackscatter iNbEntries
  let pTeflonPropertiesTable :=
    pTeflonPropertiesTable.AddProperty "EFFICIENCY" pdTeflonPhotonMomentum pdTeflonEfficiency iNbEntries
  -- Default optics if no OpticalSurface is given
  let Teflon : G4Material :=
    { name := "Teflon", fromNist := false, density := some (2.2 * u.g / u.cm3),
      nComponents := 2, state := G4State.kStateSolid, temp := none, pressure := none,
      elements := [(C, Amount.fraction 0.240183), (F, Amount.fraction 0.759817)],
      mpt := some pTeflonPropertiesTable }
  let pdTeflonSufraceTransmittance : List G4double := [1e-12, 1e-12, 1e-12]
  -- ==== LXe Teflon Optical Surface ====
  let pLXeTeflonPropertiesTable := G4MaterialPropertiesTable.empty
  let pLXeTeflonPropertiesTable := pLXeTeflonPropertiesTable.AddPropertyVector "RINDEX"
      (pTeflonPropertiesTable.GetProperty "RINDEX")
  let pLXeTeflonPropertiesTable := pLXeTeflonPropertiesTable.AddPropertyVector "REFLECTIVITY"
      (pTeflonPropertiesTable.GetProperty "REFLECTIVITY")
  let pLXeTeflonPropertiesTable := pLXeTeflonPropertiesTable.AddPropertyVector "ABSLENGTH"
      (pTeflonPropertiesTable.GetProperty "ABSLENGTH")
  let pLXeTeflonPropertiesTable := pLXeTeflonPropertiesTable.AddPropertyVector "SPECULARLOBECONSTANT"
      (pTeflonPropertiesTable.GetProperty "SPECULARLOBECONSTANT")
  let pLXeTeflonPropertiesTable := pLXeTeflonPropertiesTable.AddPropertyVector "SPECULARSPIKECONSTANT"
      (pTeflonPropertiesTable.GetProperty "SPECULARSPIKECONSTANT")
  let pLXeTeflonPropertiesTable := pLXeTeflonPropertiesTable.AddPropertyVector "BACKSCATTERCONSTANT"
      (pTeflonPropertiesTable.GetProperty "BACKSCATTERCONSTANT")
  let pLXeTeflonPropertiesTable := pLXeTeflonPropertiesTable.AddPropertyVector "EFFICIENCY"
      (pTeflonPropertiesTable.GetProperty "EFFICIENCY")
  let pLXeTeflonPropertiesTable := pLXeTeflonPropertiesTable.AddProperty "TRANSMITTANCE"
      pdTeflonPhotonMomentum pdTeflonSufraceTransmittance iNbEntries
  let pLXeTeflonOpticalSurface : G4OpticalSurface :=
    { name := "LXeTeflonOpticalSurface", model := G4OpticalSurfaceModel.unified,
      finish := G4OpticalSurfaceFinish.ground, type := G4SurfaceType.dielectric_dielectric,
      value := 0.1, theMaterialPropertiesTable := pLXeTeflonPropertiesTable }
  -- ==== LXe Teflon Unpolished Optical Surface ====
  let pLXeTeflonUnpolishedPropertiesTable := G4MaterialPropertiesTable.empty
  let pLXeTeflonUnpolishedPropertiesTable :=
    pLXeTeflonUnpolishedPropertiesTable.AddPropertyVector "RINDEX"
      (pTeflonPropertiesTable.GetProperty "RINDEX")
  let pLXeTeflonUnpolishedPropertiesTable :=
    pLXeTeflonUnpolishedPropertiesTable.AddPropertyVector "REFLECTIVITY"
      (pTeflonPropertiesTable.GetProperty "REFLECTIVITY")
  let pLXeTeflonUnpolishedPropertiesTable :=
    pLXeTeflonUnpolishedPropertiesTable.AddPropertyVector "ABSLENGTH"
      (pTeflonPropertiesTable.GetProperty "ABSLENGTH")
  let pLXeTeflonUnpolishedPropertiesTable :=
    pLXeTeflonUnpolishedPropertiesTable.AddPropertyVector "SPECULARLOBECONSTANT"
      (pTeflonPropertiesTable.GetProperty "SPECULARLOBECONSTANT")
  let pLXeTeflonUnpolishedPropertiesTable :=
    pLXeTeflonUnpolishedPropertiesTable.AddPropertyVector "SPECULARSPIKECONSTANT"
      (pTeflonPropertiesTable.GetProperty "SPECULARSPIKECONSTANT")
  let pLXeTeflonUnpolishedPropertiesTable :=
    pLXeTeflonUnpolishedPropertiesTable.AddPropertyVector "BACKSCATTERCONSTANT"
      (pTeflonPropertiesTable.GetProperty "BACKSCATTERCONSTANT")
  let pLXeTeflonUnpolishedPropertiesTable :=
    pLXeTeflonUnpolishedPropertiesTable.AddPropertyVector "EFFICIENCY"
      (pTeflonPropertiesTable.GetProperty "EFFICIENCY")
  let pLXeTeflonUnpolishedPropertiesTable :=
    pLXeTeflonUnpolishedPropertiesTable.AddProperty "TRANSMITTANCE"
      pdTeflonPhotonMomentum pdTeflonSufraceTransmittance iNbEntries
  let pLXeTeflonUnpolishedOpticalSurface : G4OpticalSurface :=
    { name := "LXeTeflonUnpolishedOpticalSurface", model := G4OpticalSurfaceModel.unified,
      finish := G4OpticalSurfaceFinish.ground, type := G4SurfaceType.dielectric_dielectric,
      value := 0.1, theMaterialPropertiesTable := pLXeTeflonUnpolishedPropertiesTable }
  -- ==== GXe Teflon Optical Surface ====
  let pGXeTeflonPropertiesTable := G4MaterialPropertiesTable.empty
  let pGXeTeflonPropertiesTable := pGXeTeflonPropertiesTable.AddPropertyVector "RINDEX"
      (pTeflonPropertiesTable.GetProperty "RINDEX")
  let pGXeTeflonPropertiesTable := pGXeTeflonPropertiesTable.AddPropertyVector "REFLECTIVITY"
      (pTeflonPropertiesTable.GetProperty "REFLECTIVITY")
  let pGXeTeflonPropertiesTable := pGXeTeflonPropertiesTable.AddPropertyVector "ABSLENGTH"
      (pTeflonPropertiesTable.GetProperty "ABSLENGTH")
  let pGXeTeflonPropertiesTable := pGXeTeflonPropertiesTable.AddPropertyVector "SPECULARLOBECONSTANT"
      (pTeflonPropertiesTable.GetProperty "SPECULARLOBECONSTANT")
  let pGXeTeflonPropertiesTable := pGXeTeflonPropertiesTable.AddPropertyVector "SPECULARSPIKECONSTANT"
      (pTeflonPropertiesTable.GetProperty "SPECULARSPIKECONSTANT")
  let pGXeTeflonPropertiesTable := pGXeTeflonPropertiesTable.AddPropertyVector "BACKSCATTERCONSTANT"
      (pTeflonPropertiesTable.GetProperty "BACKSCATTERCONSTANT")
  let pGXeTeflonPropertiesTable := pGXeTeflonPropertiesTable.AddPropertyVector "EFFICIENCY"
      (pTeflonPropertiesTable.GetProperty "EFFICIENCY")
  let pGXeTeflonPropertiesTable := pGXeTeflonPropertiesTable.AddProperty "TRANSMITTANCE"
      pdTeflonPhotonMomentum pdTeflonSufraceTransmittance iNbEntries
  let pGXeTeflonOpticalSurface : G4OpticalSurface :=
    { name := "GXeTeflonOpticalSurface", model := G4OpticalSurfaceModel.unified,
      finish := G4OpticalSurfaceFinish.ground, type := G4SurfaceType.dielectric_dielectric,
      value := 0.1, theMaterialPropertiesTable := pGXeTeflonPropertiesTable }
  -- ==== GXe Teflon Unpolished Optical Surface ====
  let pGXeUnpolishedTeflonPropertiesTable := G4MaterialPropertiesTable.empty
  let pGXeUnpolishedTeflonPropertiesTable :=
    pGXeUnpolishedTeflonPropertiesTable.AddPropertyVector "RINDEX"
      (pTeflonPropertiesTable.GetProperty "RINDEX")
  let pGXeUnpolishedTeflonPropertiesTable :=
    pGXeUnpolishedTeflonPropertiesTable.AddPropertyVector "REFLECTIVITY"
      (pTeflonPropertiesTable.GetProperty "REFLECTIVITY")
  let pGXeUnpolishedTeflonPropertiesTable :=
    pGXeUnpolishedTeflonPropertiesTable.AddPropertyVector "ABSLENGTH"
      (pTeflonPropertiesTable.GetProperty "ABSLENGTH")
  let pGXeUnpolishedTeflonPropertiesTable :=
    pGXeUnpolishedTeflonPropertiesTable.AddPropertyVector "SPECULARLOBECONSTANT"
      (pTeflonPropertiesTable.GetProperty "SPECULARLOBECONSTANT")
  let pGXeUnpolishedTeflonPropertiesTable :=
    pGXeUnpolishedTeflonPropertiesTable.AddPropertyVector "SPECULARSPIKECONSTANT"
      (pTeflonPropertiesTable.GetProperty "SPECULARSPIKECONSTANT")
  let pGXeUnpolishedTeflonPropertiesTable :=
    pGXeUnpolishedTeflonPropertiesTable.AddPropertyVector "BACKSCATTERCONSTANT"
      (pTeflonPropertiesTable.GetProperty "BACKSCATTERCONSTANT")
  let pGXeUnpolishedTeflonPropertiesTable :=
    pGXeUnpolishedTeflonPropertiesTable.AddPropertyVector "EFFICIENCY"
      (pTeflonPropertiesTable.GetProperty "EFFICIENCY")
  let pGXeUnpolishedTeflonPropertiesTable :=
    pGXeUnpolishedTeflonPropertiesTable.AddProperty "TRANSMITTANCE"
      pdTeflonPhotonMomentum pdTeflonSufraceTransmittance iNbEntries
  let pGXeTeflonUnpolishedOpticalSurface : G4OpticalSurface :=
    { name := "GXeTeflonUnpolishedOpticalSurface", model := G4OpticalSurfaceModel.unified,
      finish := G4OpticalSurfaceFinish.ground, type := G4SurfaceType.dielectric_dielectric,
      value := 0.1, theMaterialPropertiesTable := pGXeUnpolishedTeflonPropertiesTable }
  { elementTable := [Xe, H, C, N, O, F, Fe, Co],
    materialTable := [Air, Vacuum, Steel, LXe, GXe, Teflon],
    pLXeTeflonOpticalSurface := pLXeTeflonOpticalSurface,
    pLXeTeflonUnpolishedOpticalSurface := pLXeTeflonUnpolishedOpticalSurface,
    pGXeTeflonOpticalSurface := pGXeTeflonOpticalSurface,
    pGXeTeflonUnpolishedOpticalSurface := pGXeTeflonUnpolishedOpticalSurface }

/-- The body of `Xenon1tMaterials::SetLXeTeflonReflectivity`. -/
def SetLXeTeflonReflectivity (u : SystemOfUnits) (dReflectivity : G4double)
    (self : Xenon1tMaterials) : Xenon1tMaterials :=
  let tmp := self.pLXeTeflonOpticalSurface.GetMaterialPropertiesTable
  let teflon_PP : List G4double := [6.91 * u.eV, 6.98 * u.eV, 7.05 * u.eV]
  let teflon_REFL : List G4double := [dReflectivity, dReflectivity, dReflectivity]
  let tmp := tmp.RemoveProperty "REFLECTIVITY"
  let tmp := tmp.AddProperty "REFLECTIVITY" teflon_PP teflon_REFL 3
  { self with
    pLXeTeflonOpticalSurface := self.pLXeTeflonOpticalSurface.SetMaterialPropertiesTable tmp }

/-- The body of `Xenon1tMaterials::SetGXeTeflonReflectivity`. -/
def SetGXeTeflonReflectivity (u : SystemOfUnits) (dReflectivity : G4double)
    (self : Xenon1tMaterials) : Xenon1tMaterials :=
  let tmp := self.pGXeTeflonOpticalSurface.GetMaterialPropertiesTable
  let teflon_PP : List G4double := [6.91 * u.eV, 6.98 * u.eV, 7.05 * u.eV]
  let teflon_REFL : List G4double := [dReflectivity, dReflectivity, dReflectivity]
  let tmp := tmp.RemoveProperty "REFLECTIVITY"
  let tmp := tmp.AddProperty "REFLECTIVITY" teflon_PP teflon_REFL 3
  { self with
    pGXeTeflonOpticalSurface := self.pGXeTeflonOpticalSurface.SetMaterialPropertiesTable tmp }

/-- The body of `Xenon1tMaterials::SetLXeTeflonUnpolishedReflectivity`. -/
def SetLXeTeflonUnpolishedReflectivity (u : SystemOfUnits) (dReflectivity : G4double)
    (self : Xenon1tMaterials) : Xenon1tMaterials :=
  let tmp := self.pLXeTeflonUnpolishedOpticalSurface.GetMaterialPropertiesTable
  let teflon_PP : List G4double := [6.91 * u.eV, 6.98 * u.eV, 7.05 * u.eV]
  let teflon_REFL : List G4double := [dReflectivity, dReflectivity, dReflectivity]
  let tmp := tmp.RemoveProperty "REFLECTIVITY"
  let tmp := tmp.AddProperty "REFLECTIVITY" teflon_PP teflon_REFL 3
  { self with
    pLXeTeflonUnpolishedOpticalSurface :=
      self.pLXeTeflonUnpolishedOpticalSurface.SetMaterialPropertiesTable tmp }

/-- The body of `Xenon1tMaterials::SetGXeTeflonUnpolishedReflectivity`. -/
def SetGXeTeflonUnpolishedReflectivity (u : SystemOfUnits) (dReflectivity : G4double)
    (self : Xenon1tMaterials) : Xenon1tMaterials :=
  let tmp := self.pGXeTeflonUnpolishedOpticalSurface.GetMaterialPropertiesTable
  let teflon_PP : List G4double := [6.91 * u.eV, 6.98 * u.eV, 7.05 * u.eV]
  let teflon_REFL : List G4double := [dReflectivity, dReflectivity, dReflectivity]
  let tmp := tmp.RemoveProperty "REFLECTIVITY"
  let tmp := tmp.AddProperty "REFLECTIVITY" teflon_PP teflon_REFL 3
  { self with
    pGXeTeflonUnpolishedOpticalSurface :=
      self.pGXeTeflonUnpolishedOpticalSurface.SetMaterialPropertiesTable tmp }

/-- The fatal exception raised for a surface tag that is none of the four. -/
def unknownReflector : G4ExceptionRecord :=
  { originOfException := "Xenon1tMaterials", exceptionCode := "UknownPTFEtype",
    description := "Unknown type of reflector" }

/-- The fatal exception raised when the computed spike + lobe + backscatter
exceeds 1. -/
def sumLargerThanOne : G4ExceptionRecord :=
  { originOfException := "Xenon1tMaterials", exceptionCode := "RuntimeErrors",
    description := "Total sum of reflection components is larger than 1" }

/-- The body of `Xenon1tMaterials::SetTeflonReflectivitySpikeLobeBackscatter`:
the tag selects the table, then the sum is checked as the machine computes it
(the doubles added left to right, the result compared with 1), then the three
curves are replaced and the table is handed back to the surface the tag names. -/
def SetTeflonReflectivitySpikeLobeBackscatter (u : SystemOfUnits) (type : String)
    (parameters : G4ThreeVector) (self : Xenon1tMaterials) : Outcome Xenon1tMaterials :=
  let selected : Option G4MaterialPropertiesTable :=
    if type = "LXe" then some self.pLXeTeflonOpticalSurface.GetMaterialPropertiesTable
    else if type = "GXe" then some self.pGXeTeflonOpticalSurface.GetMaterialPropertiesTable
    else if type = "LXeUnpolished" then
      some self.pLXeTeflonUnpolishedOpticalSurface.GetMaterialPropertiesTable
    else if type = "GXeUnpolished" then
      some self.pGXeTeflonUnpolishedOpticalSurface.GetMaterialPropertiesTable
    else none
  match selected with
  | none => Outcome.fatal unknownReflector self
  | some tmp =>
    let spike := parameters.x
    let lobe := parameters.y
    let backscatter := parameters.z
    if (computedSum spike lobe backscatter).gt 1 then Outcome.fatal sumLargerThanOne self
    else
      let pdTeflonPhotonMomentum : List G4double := [6.91 * u.eV, 6.98 * u.eV, 7.05 * u.eV]
      let pdSpecularSpike : List G4double := [spike, spike, spike]
      let pdSpecularLobe : List G4double := [lobe, lobe, lobe]
      let pdBackscatter : List G4double := [backscatter, backscatter, backscatter]
      let tmp := tmp.RemoveProperty "SPECULARSPIKECONSTANT"
      let tmp := tmp.AddProperty "SPECULARSPIKECONSTANT" pdTeflonPhotonMomentum pdSpecularSpike 3
      let tmp := tmp.RemoveProperty "SPECULARLOBECONSTANT"
      let tmp := tmp.AddProperty "SPECULARLOBECONSTANT" pdTeflonPhotonMomentum pdSpecularLobe 3
      let tmp := tmp.RemoveProperty "BACKSCATTERCONSTANT"
      let tmp := tmp.AddProperty "BACKSCATTERCONSTANT" pdTeflonPhotonMomentum pdBackscatter 3
      if type = "LXe" then
        Outcome.ok { self with
          pLXeTeflonOpticalSurface :=
            self.pLXeTeflonOpticalSurface.SetMaterialPropertiesTable tmp }
      else if type = "GXe" then
        Outcome.ok { self with
          pGXeTeflonOpticalSurface :=
            self.pGXeTeflonOpticalSurface.SetMaterialPropertiesTable tmp }
      else if type = "LXeUnpolished" then
        Outcome.ok { self with
          pLXeTeflonUnpolishedOpticalSurface :=
            self.pLXeTeflonUnpolishedOpticalSurface.SetMaterialPropertiesTable tmp }
      else if type = "GXeUnpolished" then
        Outcome.ok { self with
          pGXeTeflonUnpolishedOpticalSurface :=
            self.pGXeTeflonUnpolishedOpticalSurface.SetMaterialPropertiesTable tmp }
      else Outcome.fatal unknownReflector self

/-- The body of `Xenon1tMaterials::DumpTeflonSurfaceParameters`: the tag selects
a surface and `DumpTable()` prints its whole table, so a normal return yields
the table that was printed. The configuration is not written to. -/
def DumpTeflonSurfaceParameters (type : String) (self : Xenon1tMaterials) :
    Except G4ExceptionRecord G4MaterialPropertiesTable :=
  if type = "LXe" then
    Except.ok self.pLXeTeflonOpticalSurface.GetMaterialPropertiesTable
  else if type = "GXe" then
    Except.ok self.pGXeTeflonOpticalSurface.GetMaterialPropertiesTable
  else if type = "LXeUnpolished" then
    Except.ok self.pLXeTeflonUnpolishedOpticalSurface.GetMaterialPropertiesTable
  else if type = "GXeUnpolished" then
    Except.ok self.pGXeTeflonUnpolishedOpticalSurface.GetMaterialPropertiesTable
  else Except.error unknownReflector

/-! ## Toolkit: the modular physics list -/

/-- The physics-type markers of `G4BuilderType.hh`. -/
inductive G4BuilderType where
  | bUnknown
  | bTransportation
  | bElectromagnetic
  | bEmExtra
  | bDecay
  | bHadronElastic
  | bHadronInelastic
  | bStopping
  | bIons
deriving DecidableEq

/-- The physics-constructor classes that `XenonPhysicsList.cc` instantiates. -/
inductive PhysicsClass where
  | Xenon1tOpticalPhysics
  | G4HadronElasticPhysicsHP
  | G4HadronPhysicsQGSP_BERT
  | SKNeutronCapturePhysics
  | G4IonElasticPhysics
  | G4IonPhysics
  | G4EmStandardPhysics
  | G4EmExtraPhysics
  | G4DecayPhysics
  | G4RadioactiveDecayPhysics
  | G4StoppingPhysics
  | G4EmLivermorePhysics
  | G4EmPenelopePhysics
  | G4HadronPhysicsQGSP_BIC_HP
  | G4HadronPhysicsQGSP_BIC
  | G4HadronPhysicsFTFP_BERT_HP
  | G4HadronInelasticQBBC
  | G4HadronPhysicsINCLXX
  | G4HadronPhysicsQGSP_BERT_HP
  | G4HadronPhysicsShielding
deriving DecidableEq

/-- Modelled from the spec: the class definitions of `Xenon1tOpticalPhysics`
and `SKNeutronCapturePhysics` are not among the sources. The spec has the
constructor register every constructor of its fixed set, these two included,
and names a type marker only for the hadronic-inelastic one; they are given
the marker a constructor has when it sets none. -/
def unlistedPhysicsType : G4BuilderType := G4BuilderType.bUnknown

/-- The physics type a toolkit constructor carries right after `new`. The
electromagnetic, extra-EM, decay, stopping, hadron-elastic and ion builders
mark themselves; the hadron-inelastic builders do not ("As default, it is not
set", as the sources note), nor do the ion-elastic and radioactive-decay ones. -/
def initialPhysicsType : PhysicsClass → G4BuilderType
  | PhysicsClass.Xenon1tOpticalPhysics => unlistedPhysicsType
  | PhysicsClass.SKNeutronCapturePhysics => unlistedPhysicsType
  | PhysicsClass.G4HadronElasticPhysicsHP => G4BuilderType.bHadronElastic
  | PhysicsClass.G4IonElasticPhysics => G4BuilderType.bUnknown
  | PhysicsClass.G4IonPhysics => G4BuilderType.bIons
  | PhysicsClass.G4EmStandardPhysics => G4BuilderType.bElectromagnetic
  | PhysicsClass.G4EmLivermorePhysics => G4BuilderType.bElectromagnetic
  | PhysicsClass.G4EmPenelopePhysics => G4BuilderType.bElectromagnetic
  | PhysicsClass.G4EmExtraPhysics => G4BuilderType.bEmExtra
  | PhysicsClass.G4DecayPhysics => G4BuilderType.bDecay
  | PhysicsClass.G4RadioactiveDecayPhysics => G4BuilderType.bUnknown
  | PhysicsClass.G4StoppingPhysics => G4BuilderType.bStopping
  | PhysicsClass.G4HadronPhysicsQGSP_BERT => G4BuilderType.bUnknown
  | PhysicsClass.G4HadronPhysicsQGSP_BIC_HP => G4BuilderType.bUnknown
  | PhysicsClass.G4HadronPhysicsQGSP_BIC => G4BuilderType.bUnknown
  | PhysicsClass.G4HadronPhysicsFTFP_BERT_HP => G4BuilderType.bUnknown
  | PhysicsClass.G4HadronInelasticQBBC => G4BuilderType.bUnknown
  | PhysicsClass.G4HadronPhysicsINCLXX => G4BuilderType.bUnknown
  | PhysicsClass.G4HadronPhysicsQGSP_BERT_HP => G4BuilderType.bUnknown
  | PhysicsClass.G4HadronPhysicsShielding => G4BuilderType.bUnknown

/-- A physics-constructor object: its class, the verbosity and the string
argument it was created with (when the call passes one), and its physics type. -/
structure G4VPhysicsConstructor where
  cls : PhysicsClass
  verbose : Int
  arg : Option String
  typePhysics : G4BuilderType
deriving DecidableEq

namespace G4VPhysicsConstructor

/-- The object made by `new C(verbose)`. -/
def create (cls : PhysicsClass) (verbose : Int) : G4VPhysicsConstructor :=
  { cls := cls, verbose := verbose, arg := none, typePhysics := initialPhysicsType cls }

/-- The object made by `new C(verbose, text)`. -/
def createWith (cls : PhysicsClass) (verbose : Int) (text : String) : G4VPhysicsConstructor :=
  { cls := cls, verbose := verbose, arg := some text, typePhysics := initialPhysicsType cls }

/-- The mutator `SetPhysicsType(type)`. -/
def SetPhysicsType (p : G4VPhysicsConstructor) (type : G4BuilderType) : G4VPhysicsConstructor :=
  { p with typePhysics := type }

end G4VPhysicsConstructor

/-- The settings the sources apply to the optical physics constructor. -/
structure OpticalSettings where
  MaxNumPhotonsPerStep : Int
  MaxBetaChangePerStep : G4double
  TrackSecondariesFirst_kCerenkov : Bool
  Configure_kCerenkov : Bool
deriving DecidableEq

/-- The state of a `Xenon1tPhysicsList`: its verbosity members, the vector of
registered constructors kept by `G4VModularPhysicsList`, and the settings of
the optical constructor that `OpticalPhysicsModel` points to. -/
structure Xenon1tPhysicsList where
  VerboseLevel : Int
  OpVerbLevel : Int
  verboseLevel : Int
  physicsVector : List G4VPhysicsConstructor
  OpticalPhysicsModel : OpticalSettings
deriving DecidableEq

/-- The in-place replacement inside `G4VModularPhysicsList::ReplacePhysics`:
the first registered constructor of the same physics type gives way to the new
one; when there is none, the new one is added at the end. -/
def replaceFirstOfType (fPhysics : G4VPhysicsConstructor) :
    List G4VPhysicsConstructor → List G4VPhysicsConstructor
  | [] => [fPhysics]
  | q :: qs =>
    if fPhysics.typePhysics = q.typePhysics then fPhysics :: qs
    else q :: replaceFirstOfType fPhysics qs

namespace Xenon1tPhysicsList

/-- The toolkit's `G4VModularPhysicsList::RegisterPhysics`, before the run is
initialised: a constructor of unknown type is appended; one of a known type is
appended unless a constructor of that type is registered already, in which
case the call only warns. -/
def RegisterPhysics (self : Xenon1tPhysicsList) (fPhysics : G4VPhysicsConstructor) :
    Xenon1tPhysicsList :=
  if fPhysics.typePhysics = G4BuilderType.bUnknown then
    { self with physicsVector := self.physicsVector ++ [fPhysics] }
  else if self.physicsVector.any (fun q => decide (fPhysics.typePhysics = q.typePhysics)) then
    self
  else
    { self with physicsVector := self.physicsVector ++ [fPhysics] }

/-- The toolkit's `G4VModularPhysicsList::ReplacePhysics`, before the run is
initialised: a constructor of unknown type is appended; one of a known type
takes the place of the registered constructor of that type. -/
def ReplacePhysics (self : Xenon1tPhysicsList) (fPhysics : G4VPhysicsConstructor) :
    Xenon1tPhysicsList :=
  if fPhysics.typePhysics = G4BuilderType.bUnknown then
    { self with physicsVector := self.physicsVector ++ [fPhysics] }
  else
    { self with physicsVector := replaceFirstOfType fPhysics self.physicsVector }

end Xenon1tPhysicsList

/-! ## `XenonPhysicsList.cc` -/

/-- The constructor `Xenon1tPhysicsList::Xenon1tPhysicsList()`; it is named
`construct` because the class name itself is taken by the state type. -/
def Xenon1tPhysicsList.construct : Xenon1tPhysicsList :=
  let VerboseLevel : Int := 0
  let OpVerbLevel : Int := 0
  let self : Xenon1tPhysicsList :=
    { VerboseLevel := VerboseLevel, OpVerbLevel := OpVerbLevel, verboseLevel := VerboseLevel,
      physicsVector := [],
      OpticalPhysicsModel :=
        { MaxNumPhotonsPerStep := 1000, MaxBetaChangePerStep := 10,
          TrackSecondariesFirst_kCerenkov := true, Configure_kCerenkov := false } }
  let self := self.RegisterPhysics
    (G4VPhysicsConstructor.create PhysicsClass.Xenon1tOpticalPhysics VerboseLevel)
  -- Hadron Elastic scattering
  let self := self.RegisterPhysics
    (G4VPhysicsConstructor.create PhysicsClass.G4HadronElasticPhysicsHP VerboseLevel)
  -- Hadron Inelastic Physics
  let HadronInelasticPhysics :=
    G4VPhysicsConstructor.create PhysicsClass.G4HadronPhysicsQGSP_BERT VerboseLevel
  let HadronInelasticPhysics :=
    HadronInelasticPhysics.SetPhysicsType G4BuilderType.bHadronInelastic
  let self := self.RegisterPhysics HadronInelasticPhysics
  -- Neutron Capture Physics
  let self := self.RegisterPhysics
    (G4VPhysicsConstructor.createWith PhysicsClass.SKNeutronCapturePhysics VerboseLevel "neutron")
  -- Ion Elastic scattering
  let self := self.RegisterPhysics
    (G4VPhysicsConstructor.create PhysicsClass.G4IonElasticPhysics VerboseLevel)
  -- Ion Inelastic Physics
  let self := self.RegisterPhysics
    (G4VPhysicsConstructor.create PhysicsClass.G4IonPhysics VerboseLevel)
  -- EM physics
  let self := self.RegisterPhysics
    (G4VPhysicsConstructor.createWith PhysicsClass.G4EmStandardPhysics VerboseLevel "")
  let self := self.RegisterPhysics
    (G4VPhysicsConstructor.create PhysicsClass.G4EmExtraPhysics VerboseLevel)
  -- Decay
  let self := self.RegisterPhysics
    (G4VPhysicsConstructor.create PhysicsClass.G4DecayPhysics VerboseLevel)
  -- Radioactive decay
  let self := self.RegisterPhysics
    (G4VPhysicsConstructor.create PhysicsClass.G4RadioactiveDecayPhysics VerboseLevel)
  let self := self.RegisterPhysics
    (G4VPhysicsConstructor.create PhysicsClass.G4StoppingPhysics VerboseLevel)
  self

/-- The body of `Xenon1tPhysicsList::SetCerenkov`. -/
def SetCerenkov (useCerenkov : Bool) (self : Xenon1tPhysicsList) : Xenon1tPhysicsList :=
  { self with
    OpticalPhysicsModel := { self.OpticalPhysicsModel with Configure_kCerenkov := useCerenkov } }

/-- The message of the fatal exception of `SetEMlowEnergyModel`. -/
def emChoicesMessage : String :=
  " Available choices are: <emstandard> <emlivermore " ++
  "(default)> <empenelope>"

/-- The fatal exception raised by `SetEMlowEnergyModel` for an unknown name. -/
def badEMPhysicsList : G4ExceptionRecord :=
  { originOfException := "Xenon1tPhysicsList::Xenon1tPhysicsList()",
    exceptionCode := "PhysicsList", description := emChoicesMessage }

/-- The body of `Xenon1tPhysicsList::SetEMlowEnergyModel`. -/
def SetEMlowEnergyModel (name : String) (self : Xenon1tPhysicsList) :
    Outcome Xenon1tPhysicsList :=
  if name = "emstandard" then
    Outcome.ok (self.ReplacePhysics
      (G4VPhysicsConstructor.createWith PhysicsClass.G4EmStandardPhysics self.VerboseLevel ""))
  else if name = "emlivermore" then
    Outcome.ok (self.ReplacePhysics
      (G4VPhysicsConstructor.createWith PhysicsClass.G4EmLivermorePhysics self.VerboseLevel ""))
  else if name = "empenelope" then
    Outcome.ok (self.ReplacePhysics
      (G4VPhysicsConstructor.createWith PhysicsClass.G4EmPenelopePhysics self.VerboseLevel ""))
  else
    Outcome.fatal badEMPhysicsList self

/-- The message of the fatal exception of `SetHadronicModel`. -/
def hadronicChoicesMessage : String :=
  "Xenon1tPhysicsList::Xenon1tPhysicsList() Available choices " ++
  "for Hadronic Physics are: <QGSP_BIC_HP> <QGSP_BERT_HP> " ++
  "<FTFP_BERT_HP> <QBBC> <QGSP_BERT> <Shielding>"

/-- The fatal exception raised by `SetHadronicModel` for an unknown name. -/
def badHadronicPhysicsList : G4ExceptionRecord :=
  { originOfException := "Xenon1tPhysicsList::Xenon1tPhysicsList()",
    exceptionCode := "PhysicsList", description := hadronicChoicesMessage }

/-- The body of `Xenon1tPhysicsList::SetHadronicModel`: the name selects the
builder (`none` stands for the branch that raises the exception, where the
pointer is still null); a selected builder is tagged as hadron-inelastic and
put in place of the registered one. -/
def SetHadronicModel (name : String) (self : Xenon1tPhysicsList) :
    Outcome Xenon1tPhysicsList :=
  let HadronInelasticPhysics : Option G4VPhysicsConstructor :=
    if name = "QGSP_BIC_HP" then
      some (G4VPhysicsConstructor.create PhysicsClass.G4HadronPhysicsQGSP_BIC_HP self.VerboseLevel)
    else if name = "QGSP_BIC" then
      some (G4VPhysicsConstructor.create PhysicsClass.G4HadronPhysicsQGSP_BIC self.VerboseLevel)
    else if name = "FTFP_BERT_HP" then
      some (G4VPhysicsConstructor.create PhysicsClass.G4HadronPhysicsFTFP_BERT_HP self.VerboseLevel)
    else if name = "QBBC" then
      some (G4VPhysicsConstructor.create PhysicsClass.G4HadronInelasticQBBC self.VerboseLevel)
    else if name = "INCLXX" then
      some (G4VPhysicsConstructor.create PhysicsClass.G4HadronPhysicsINCLXX self.VerboseLevel)
    else if name = "QGSP_BERT_HP" then
      some (G4VPhysicsConstructor.create PhysicsClass.G4HadronPhysicsQGSP_BERT_HP self.VerboseLevel)
    else if name = "QGSP_BERT" then
      some (G4VPhysicsConstructor.create PhysicsClass.G4HadronPhysicsQGSP_BERT self.VerboseLevel)
    else if name = "Shielding" then
      some (G4VPhysicsConstructor.create PhysicsClass.G4HadronPhysicsShielding self.VerboseLevel)
    else none
  match HadronInelasticPhysics with
  | none => Outcome.fatal badHadronicPhysicsList self
  | some HadronInelasticPhysics =>
    let HadronInelasticPhysics :=
      HadronInelasticPhysics.SetPhysicsType G4BuilderType.bHadronInelastic
    Outcome.ok (self.ReplacePhysics HadronInelasticPhysics)

/-! ## Vocabulary of the specification -/

/-- The four Teflon surfaces the class keeps. -/
inductive TeflonSurface where
  | LXeTeflon
  | GXeTeflon
  | LXeTeflonUnpolished
  | GXeTeflonUnpolished
deriving DecidableEq

/-- The surface-type tag under which the specification names each surface. -/
def TeflonSurface.tag : TeflonSurface → String
  | TeflonSurface.LXeTeflon => "LXe"
  | TeflonSurface.GXeTeflon => "GXe"
  | TeflonSurface.LXeTeflonUnpolished => "LXeUnpolished"
  | TeflonSurface.GXeTeflonUnpolished => "GXeUnpolished"

/-- The four known surface-type tags. -/
def knownTags : List String := ["LXe", "GXe", "LXeUnpolished", "GXeUnpolished"]

/-- The surface object behind each of the four surfaces. -/
def Xenon1tMaterials.surface (self : Xenon1tMaterials) : TeflonSurface → G4OpticalSurface
  | TeflonSurface.LXeTeflon => self.pLXeTeflonOpticalSurface
  | TeflonSurface.GXeTeflon => self.pGXeTeflonOpticalSurface
  | TeflonSurface.LXeTeflonUnpolished => self.pLXeTeflonUnpolishedOpticalSurface
  | TeflonSurface.GXeTeflonUnpolished => self.pGXeTeflonUnpolishedOpticalSurface

/-- The curve stored under `key` in the table of a surface. -/
def Xenon1tMaterials.curve (self : Xenon1tMaterials) (σ : TeflonSurface) (key : String) :
    Option G4MaterialPropertyVector :=
  (self.surface σ).GetMaterialPropertiesTable.GetProperty key

/-- The fixed three-point photon-energy grid: 6.91, 6.98, 7.05 eV. -/
def overrideGrid (u : SystemOfUnits) : List G4double :=
  [6.91 * u.eV, 6.98 * u.eV, 7.05 * u.eV]

/-- The flat curve on the three-point grid: value `v` at every grid point. -/
def flatCurve (u : SystemOfUnits) (v : G4double) : G4MaterialPropertyVector :=
  (overrideGrid u).map (fun e => (e, v))

/-- The reflectivity setter of each surface. -/
def reflectivitySetter (u : SystemOfUnits) :
    TeflonSurface → G4double → Xenon1tMaterials → Xenon1tMaterials
  | TeflonSurface.LXeTeflon => SetLXeTeflonReflectivity u
  | TeflonSurface.GXeTeflon => SetGXeTeflonReflectivity u
  | TeflonSurface.LXeTeflonUnpolished => SetLXeTeflonUnpolishedReflectivity u
  | TeflonSurface.GXeTeflonUnpolished => SetGXeTeflonUnpolishedReflectivity u

/-- A system of units with the usual magnitudes (MeV, mm and ns equal to 1),
used to evaluate the definitions on concrete inputs. -/
def sampleUnits : SystemOfUnits :=
  { eV := 1 / 1000000, keV := 1 / 1000, cm := 10, m := 1000, ns := 1, g := 1, mole := 1,
    cm3 := 1000, kelvin := 1, atmosphere := 1 }

/-- The three curves the combined setter writes. -/
def partitionKeys : List String :=
  ["SPECULARSPIKECONSTANT", "SPECULARLOBECONSTANT", "BACKSCATTERCONSTANT"]

/-- Where the reader of a message stands: outside any bracket, inside a bracket and still
reading the name, or inside a bracket past the name. -/
inductive ScanState where
  | outside
  | inName (acc : List Char)
  | afterName

/-- One pass over the characters of a message, collecting for every bracketed group
`<...>` the text from the opening bracket up to the first blank or the closing bracket. -/
def scanChoices : ScanState → List Char → List String
  | _, [] => []
  | ScanState.outside, c :: cs =>
    if c = '<' then scanChoices (ScanState.inName []) cs else scanChoices ScanState.outside cs
  | ScanState.inName acc, c :: cs =>
    if c = '>' then String.mk acc :: scanChoices ScanState.outside cs
    else if c = ' ' then String.mk acc :: scanChoices ScanState.afterName cs
    else scanChoices (ScanState.inName (acc ++ [c])) cs
  | ScanState.afterName, c :: cs =>
    if c = '>' then scanChoices ScanState.outside cs else scanChoices ScanState.afterName cs

/-- The choices a fatal message enumerates: the names it gives between `<` and `>`, an
annotation after a blank (as in `<emlivermore (default)>`) not being part of the name. -/
def listedChoices (message : String) : List String :=
  scanChoices ScanState.outside message.data

/-- The three names the EM selector is specified to accept. -/
def emModelNames : List String := ["emstandard", "emlivermore", "empenelope"]

/-- The six names the fatal message of the hadronic selector enumerates. -/
def documentedHadronicNames : List String :=
  ["QGSP_BIC_HP", "QGSP_BERT_HP", "FTFP_BERT_HP", "QBBC", "QGSP_BERT", "Shielding"]

/-- The eight names the hadronic selector compares with, in the order of its branches. -/
def hadronicModelNames : List String :=
  ["QGSP_BIC_HP", "QGSP_BIC", "FTFP_BERT_HP", "QBBC", "INCLXX", "QGSP_BERT_HP", "QGSP_BERT",
    "Shielding"]

/-- The EM low-energy models, by the names the selector compares with. -/
inductive EMModel where
  | emstandard
  | emlivermore
  | empenelope
deriving DecidableEq

/-- The builder class each EM model stands for. -/
def EMModel.builder : EMModel → PhysicsClass
  | EMModel.emstandard => PhysicsClass.G4EmStandardPhysics
  | EMModel.emlivermore => PhysicsClass.G4EmLivermorePhysics
  | EMModel.empenelope => PhysicsClass.G4EmPenelopePhysics

/-- The EM model a name selects, if it is one of the three. -/
def EMModel.ofName (name : String) : Option EMModel :=
  if name = "emstandard" then some EMModel.emstandard
  else if name = "emlivermore" then some EMModel.emlivermore
  else if name = "empenelope" then some EMModel.empenelope
  else none

/-- The hadronic inelastic models, by the names the selector compares with. -/
inductive HadronicModel where
  | QGSP_BIC_HP
  | QGSP_BIC
  | FTFP_BERT_HP
  | QBBC
  | INCLXX
  | QGSP_BERT_HP
  | QGSP_BERT
  | Shielding
deriving DecidableEq

/-- The builder class each hadronic model stands for. -/
def HadronicModel.builder : HadronicModel → PhysicsClass
  | HadronicModel.QGSP_BIC_HP => PhysicsClass.G4HadronPhysicsQGSP_BIC_HP
  | HadronicModel.QGSP_BIC => PhysicsClass.G4HadronPhysicsQGSP_BIC
  | HadronicModel.FTFP_BERT_HP => PhysicsClass.G4HadronPhysicsFTFP_BERT_HP
  | HadronicModel.QBBC => PhysicsClass.G4HadronInelasticQBBC
  | HadronicModel.INCLXX => PhysicsClass.G4HadronPhysicsINCLXX
  | HadronicModel.QGSP_BERT_HP => PhysicsClass.G4HadronPhysicsQGSP_BERT_HP
  | HadronicModel.QGSP_BERT => PhysicsClass.G4HadronPhysicsQGSP_BERT
  | HadronicModel.Shielding => PhysicsClass.G4HadronPhysicsShielding

/-- The hadronic model a name selects, if it is one of the eight. -/
def HadronicModel.ofName (name : String) : Option HadronicModel :=
  if name = "QGSP_BIC_HP" then some HadronicModel.QGSP_BIC_HP
  else if name = "QGSP_BIC" then some HadronicModel.QGSP_BIC
  else if name = "FTFP_BERT_HP" then some HadronicModel.FTFP_BERT_HP
  else if name = "QBBC" then some HadronicModel.QBBC
  else if name = "INCLXX" then some HadronicModel.INCLXX
  else if name = "QGSP_BERT_HP" then some HadronicModel.QGSP_BERT_HP
  else if name = "QGSP_BERT" then some HadronicModel.QGSP_BERT
  else if name = "Shielding" then some HadronicModel.Shielding
  else none

/-- The registration an EM model amounts to: its builder, created with verbosity 0 and
the empty string. -/
def EMModel.registration (e : EMModel) : G4VPhysicsConstructor :=
  G4VPhysicsConstructor.createWith e.builder 0 ""

/-- The registration a hadronic model amounts to: its builder, created with verbosity 0
and tagged as hadron-inelastic. -/
def HadronicModel.registration (h : HadronicModel) : G4VPhysicsConstructor :=
  (G4VPhysicsConstructor.create h.builder 0).SetPhysicsType G4BuilderType.bHadronInelastic

/-- Whether a registration is an EM low-energy constructor. -/
def isEMLowEnergy (q : G4VPhysicsConstructor) : Bool :=
  decide (q.cls ∈ [PhysicsClass.G4EmStandardPhysics, PhysicsClass.G4EmLivermorePhysics,
    PhysicsClass.G4EmPenelopePhysics])

/-- Whether a registration is a hadronic-inelastic constructor. -/
def isHadronInelastic (q : G4VPhysicsConstructor) : Bool :=
  decide (q.cls ∈ [PhysicsClass.G4HadronPhysicsQGSP_BIC_HP, PhysicsClass.G4HadronPhysicsQGSP_BIC,
    PhysicsClass.G4HadronPhysicsFTFP_BERT_HP, PhysicsClass.G4HadronInelasticQBBC,
    PhysicsClass.G4HadronPhysicsINCLXX, PhysicsClass.G4HadronPhysicsQGSP_BERT_HP,
    PhysicsClass.G4HadronPhysicsQGSP_BERT, PhysicsClass.G4HadronPhysicsShielding])

/-- A call to one of the two model selectors of the physics list. -/
inductive PhysicsCall where
  | SetEMlowEnergyModel (name : String)
  | SetHadronicModel (name : String)

/-- The effect of one selector call. -/
def PhysicsCall.run : PhysicsCall → Xenon1tPhysicsList → Outcome Xenon1tPhysicsList
  | PhysicsCall.SetEMlowEnergyModel name => LXePETSim.SetEMlowEnergyModel name
  | PhysicsCall.SetHadronicModel name => LXePETSim.SetHadronicModel name

/-- A sequence of selector calls, in order; the run ends at the first fatal call. -/
def runPhysicsCalls : List PhysicsCall → Xenon1tPhysicsList → Outcome Xenon1tPhysicsList
  | [], self => Outcome.ok self
  | c :: cs, self => (c.run self).andThen (runPhysicsCalls cs)

/-- The EM model most recently selected by a sequence of calls, starting from `current`. -/
def selectedEMFrom (current : EMModel) : List PhysicsCall → EMModel
  | [] => current
  | PhysicsCall.SetEMlowEnergyModel name :: cs =>
    selectedEMFrom ((EMModel.ofName name).getD current) cs
  | PhysicsCall.SetHadronicModel _ :: cs => selectedEMFrom current cs

/-- The hadronic model most recently selected by a sequence of calls, starting from
`current`. -/
def selectedHadronicFrom (current : HadronicModel) : List PhysicsCall → HadronicModel
  | [] => current
  | PhysicsCall.SetEMlowEnergyModel _ :: cs => selectedHadronicFrom current cs
  | PhysicsCall.SetHadronicModel name :: cs =>
    selectedHadronicFrom ((HadronicModel.ofName name).getD current) cs

/-- The EM model in force after a sequence of calls on the constructed list: the most
recently selected one, or the one the constructor registers when none was selected. -/
def selectedEM (calls : List PhysicsCall) : EMModel :=
  selectedEMFrom EMModel.emstandard calls

/-- The hadronic model in force after a sequence of calls on the constructed list: the most
recently selected one, or the one the constructor registers when none was selected. -/
def selectedHadronic (calls : List PhysicsCall) : HadronicModel :=
  selectedHadronicFrom HadronicModel.QGSP_BERT calls

/-- The constructed list with the hadron-inelastic slot (index 2) and the EM slot (index 6)
holding the registrations of the given models, every other field and slot untouched. -/
def withModels (e : EMModel) (h : HadronicModel) : Xenon1tPhysicsList :=
  { Xenon1tPhysicsList.construct with
    physicsVector :=
      (Xenon1tPhysicsList.construct.physicsVector.set 2 h.registration).set 6 e.registration }

/-- A call to one of the five override setters of the materials class. -/
inductive MaterialsCall where
  | SetLXeTeflonReflectivity (dReflectivity : G4double)
  | SetGXeTeflonReflectivity (dReflectivity : G4double)
  | SetLXeTeflonUnpolishedReflectivity (dReflectivity : G4double)
  | SetGXeTeflonUnpolishedReflectivity (dReflectivity : G4double)
  | SetTeflonReflectivitySpikeLobeBackscatter (type : String) (parameters : G4ThreeVector)

/-- The effect of one override call; the reflectivity setters have no failing path. -/
def MaterialsCall.run (u : SystemOfUnits) :
    MaterialsCall → Xenon1tMaterials → Outcome Xenon1tMaterials
  | MaterialsCall.SetLXeTeflonReflectivity v, self =>
    Outcome.ok (LXePETSim.SetLXeTeflonReflectivity u v self)
  | MaterialsCall.SetGXeTeflonReflectivity v, self =>
    Outcome.ok (LXePETSim.SetGXeTeflonReflectivity u v self)
  | MaterialsCall.SetLXeTeflonUnpolishedReflectivity v, self =>
    Outcome.ok (LXePETSim.SetLXeTeflonUnpolishedReflectivity u v self)
  | MaterialsCall.SetGXeTeflonUnpolishedReflectivity v, self =>
    Outcome.ok (LXePETSim.SetGXeTeflonUnpolishedReflectivity u v self)
  | MaterialsCall.SetTeflonReflectivitySpikeLobeBackscatter type parameters, self =>
    LXePETSim.SetTeflonReflectivitySpikeLobeBackscatter u type parameters self

/-- A sequence of override calls, in order; the run ends at the first fatal call. -/
def runMaterialsCalls (u : SystemOfUnits) :
    List MaterialsCall → Xenon1tMaterials → Outcome Xenon1tMaterials
  | [], self => Outcome.ok self
  | c :: cs, self => (c.run u self).andThen (runMaterialsCalls u cs)

/-- The grid-point sums of three curves: entry by entry, the photon energy of the first
curve with the sum of the three values. -/
def pointwiseSum : G4MaterialPropertyVector → G4MaterialPropertyVector →
    G4MaterialPropertyVector → G4MaterialPropertyVector
  | a :: as, b :: bs, c :: cs => (a.1, a.2 + b.2 + c.2) :: pointwiseSum as bs cs
  | _, _, _ => []

/-- The reflectivity partition of a table is within bounds: the spike, lobe and backscatter
curves are all there, they are given on the same photon energies, and at every one of them
the three values sum to at most 1. -/
def PartitionWithinOne (t : G4MaterialPropertiesTable) : Prop :=
  ∃ spike lobe backscatter : G4MaterialPropertyVector,
    t.GetProperty "SPECULARSPIKECONSTANT" = some spike ∧
    t.GetProperty "SPECULARLOBECONSTANT" = some lobe ∧
    t.GetProperty "BACKSCATTERCONSTANT" = some backscatter ∧
    spike.map Prod.fst = lobe.map Prod.fst ∧
    lobe.map Prod.fst = backscatter.map Prod.fst ∧
    ∀ q ∈ pointwiseSum spike lobe backscatter, q.2 ≤ 1

/-- The grid-point sums of three curves as the code adds them: entry by entry, the photon
energy of the first curve with the computed sum of the three values. -/
def pointwiseComputedSum : G4MaterialPropertyVector → G4MaterialPropertyVector →
    G4MaterialPropertyVector → List (G4double × MachineDouble)
  | a :: as, b :: bs, c :: cs =>
    (a.1, computedSum a.2 b.2 c.2) :: pointwiseComputedSum as bs cs
  | _, _, _ => []

/-- The reflectivity partition of a table passes the code's own test: the spike, lobe and
backscatter curves are all there, they are given on the same photon energies, and at every
one of them the sum of the three values, added as the code adds them, is not greater
than 1. -/
def PartitionAccepted (t : G4MaterialPropertiesTable) : Prop :=
  ∃ spike lobe backscatter : G4MaterialPropertyVector,
    t.GetProperty "SPECULARSPIKECONSTANT" = some spike ∧
    t.GetProperty "SPECULARLOBECONSTANT" = some lobe ∧
    t.GetProperty "BACKSCATTERCONSTANT" = some backscatter ∧
    spike.map Prod.fst = lobe.map Prod.fst ∧
    lobe.map Prod.fst = backscatter.map Prod.fst ∧
    ∀ q ∈ pointwiseComputedSum spike lobe backscatter, q.2.gt 1 = false

/-- The three partition curves of a surface are flat on the three-point grid, with values
whose computed sum is not greater than 1. -/
def FlatPartition (u : SystemOfUnits) (self : Xenon1tMaterials) (σ : TeflonSurface) : Prop :=
  ∃ spike lobe backscatter : G4double,
    (computedSum spike lobe backscatter).gt 1 = false ∧
    self.curve σ "SPECULARSPIKECONSTANT" = some (flatCurve u spike) ∧
    self.curve σ "SPECULARLOBECONSTANT" = some (flatCurve u lobe) ∧
    self.curve σ "BACKSCATTERCONSTANT" = some (flatCurve u backscatter)

/-- The classes the constructor registers, in the order of its `RegisterPhysics` calls:
optical, hadronic elastic, hadronic inelastic, neutron capture, ion elastic, ion inelastic,
EM standard, EM extra, decay, radioactive decay, stopping. -/
def constructorClasses : List PhysicsClass :=
  [PhysicsClass.Xenon1tOpticalPhysics, PhysicsClass.G4HadronElasticPhysicsHP,
   PhysicsClass.G4HadronPhysicsQGSP_BERT, PhysicsClass.SKNeutronCapturePhysics,
   PhysicsClass.G4IonElasticPhysics, PhysicsClass.G4IonPhysics,
   PhysicsClass.G4EmStandardPhysics, PhysicsClass.G4EmExtraPhysics,
   PhysicsClass.G4DecayPhysics, PhysicsClass.G4RadioactiveDecayPhysics,
   PhysicsClass.G4StoppingPhysics]

/-- The material registered under `name`, as `G4Material::GetMaterial(name)` finds it. -/
def Xenon1tMaterials.GetMaterial (self : Xenon1tMaterials) (name : String) : Option G4Material :=
  self.materialTable.find? (fun mat => decide (mat.name = name))

/-- The curve stored under `key` in the table of the material registered under `name`. -/
def Xenon1tMaterials.materialCurve (self : Xenon1tMaterials) (name key : String) :
    Option G4MaterialPropertyVector :=
  match self.GetMaterial name with
  | some mat =>
    match mat.mpt with
    | some t => t.GetProperty key
    | none => none
  | none => none

/-- A list of photon energies is strictly increasing: every entry is below every later
one. -/
def StrictlyIncreasing (energies : List G4double) : Prop :=
  energies.Pairwise (fun a b => a < b)

/-- The photon energies a curve is given on. -/
def energiesOf (curve : G4MaterialPropertyVector) : List G4double :=
  curve.map Prod.fst

/-- Every curve of a table is given on strictly increasing photon energies. -/
def GridsIncreasing (t : G4MaterialPropertiesTable) : Prop :=
  ∀ (key : String) (curve : G4MaterialPropertyVector),
    t.GetProperty key = some curve → StrictlyIncreasing (energiesOf curve)

/-- The 32 photon energies of the array `PhotonEnergy` of `DefineMaterials`, on which the
curves of air and vacuum are built. -/
def PhotonEnergy (u : SystemOfUnits) : List G4double :=
  [2.034 * u.eV, 2.068 * u.eV, 2.103 * u.eV, 2.139 * u.eV, 2.177 * u.eV, 2.216 * u.eV,
   2.256 * u.eV, 2.298 * u.eV, 2.341 * u.eV, 2.386 * u.eV, 2.433 * u.eV, 2.481 * u.eV,
   2.532 * u.eV, 2.585 * u.eV, 2.640 * u.eV, 2.697 * u.eV, 2.757 * u.eV, 2.820 * u.eV,
   2.885 * u.eV, 2.954 * u.eV, 3.026 * u.eV, 3.102 * u.eV, 3.181 * u.eV, 3.265 * u.eV,
   3.353 * u.eV, 3.446 * u.eV, 3.545 * u.eV, 3.649 * u.eV, 3.760 * u.eV, 3.877 * u.eV,
   4.002 * u.eV, 4.136 * u.eV]

/-- The bracketed groups of a message: for every `<...>`, the characters between the two
brackets. The first argument holds the group being read, if any. -/
def bracketGroups : Option (List Char) → List Char → List (List Char)
  | _, [] => []
  | none, c :: cs =>
    if c = '<' then bracketGroups (some []) cs else bracketGroups none cs
  | some acc, c :: cs =>
    if c = '>' then acc :: bracketGroups none cs else bracketGroups (some (acc ++ [c])) cs

/-- The choice a message marks as the default: the name of the first bracketed group whose
text after the name is ` (default)`. -/
def markedDefault (message : String) : Option String :=
  ((bracketGroups none message.data).find?
      (fun g => decide (g.dropWhile (fun c => decide (c ≠ ' ')) = " (default)".data))).map
    (fun g => String.mk (g.takeWhile (fun c => decide (c ≠ ' '))))

/-! ## Theorems -/

set_option maxRecDepth 8192

/-- The flat curve, written out point by point. -/
theorem flatCurve_eq (u : SystemOfUnits) (v : G4double) :
    flatCurve u v = [(6.91 * u.eV, v), (6.98 * u.eV, v), (7.05 * u.eV, v)] :=
  rfl

/-- When the computed sum exceeds 1, the combined setter on a known tag raises the
sum-too-large exception and hands back the configuration it was given. -/
theorem SetTeflonReflectivitySpikeLobeBackscatter_of_exceeds (u : SystemOfUnits)
    (σ : TeflonSurface) (p : G4ThreeVector) (self : Xenon1tMaterials)
    (h : (computedSum p.x p.y p.z).gt 1 = true) :
    SetTeflonReflectivitySpikeLobeBackscatter u σ.tag p self =
      Outcome.fatal sumLargerThanOne self := by
  cases σ <;> simp [SetTeflonReflectivitySpikeLobeBackscatter, TeflonSurface.tag, h]

/-- When the computed sum does not exceed 1, the combined setter on a known tag returns
normally, the three curves of the named surface hold the three inputs at every grid point,
and the other surfaces are as before. -/
theorem SetTeflonReflectivitySpikeLobeBackscatter_of_accepted (u : SystemOfUnits)
    (σ : TeflonSurface) (p : G4ThreeVector) (self : Xenon1tMaterials)
    (h : (computedSum p.x p.y p.z).gt 1 = false) :
    ∃ s', SetTeflonReflectivitySpikeLobeBackscatter u σ.tag p self = Outcome.ok s' ∧
      s'.curve σ "SPECULARSPIKECONSTANT" = some (flatCurve u p.x) ∧
      s'.curve σ "SPECULARLOBECONSTANT" = some (flatCurve u p.y) ∧
      s'.curve σ "BACKSCATTERCONSTANT" = some (flatCurve u p.z) ∧
      ∀ τ, τ ≠ σ → s'.surface τ = self.surface τ := by
  cases σ <;>
  · simp only [SetTeflonReflectivitySpikeLobeBackscatter, TeflonSurface.tag, h,
      Bool.false_eq_true, reduceIte, String.reduceEq]
    refine ⟨_, rfl, rfl, rfl, rfl, ?_⟩
    intro τ hτ
    cases τ <;> first | rfl | exact absurd rfl hτ

/-- Binary64 rounding on sample values: the literal `0.3` denotes the double
5404319552844595 / 2^54; a tie goes to the even significand (2^53 + 1 is rounded down,
2^53 + 3 up); the largest double stays finite and half a step above it overflows; half the
smallest subnormal is rounded to zero. -/
theorem roundToDouble_samples :
    roundToDouble 0.3 = MachineDouble.finite (5404319552844595 / 18014398509481984) ∧
    roundToDouble (2 ^ 53 + 1) = MachineDouble.finite (2 ^ 53) ∧
    roundToDouble (2 ^ 53 + 3) = MachineDouble.finite (2 ^ 53 + 4) ∧
    roundToDouble (2 ^ 1024 - 2 ^ 971) = MachineDouble.finite (2 ^ 1024 - 2 ^ 971) ∧
    roundToDouble (2 ^ 1024 - 2 ^ 970) = MachineDouble.posInf ∧
    roundToDouble (-(2 ^ 1024 - 2 ^ 970)) = MachineDouble.negInf ∧
    roundToDouble (1 / 2 ^ 1075) = MachineDouble.finite 0 := by
  refine ⟨?_, ?_, ?_, ?_, ?_, ?_, ?_⟩ <;> decide!

/-- Double additions on the doubles that decimal literals denote: 0.1 + 0.2 gives
0.30000000000000004, 0.3 + 0.3 + 0.3 gives 0.8999999999999999, and 0.34 + 0.56 + 0.1 gives
1 + 2^-52, above 1. -/
theorem computedSum_decimal_literals :
    roundToDouble 0.1 = MachineDouble.finite (3602879701896397 / 36028797018963968) ∧
    roundToDouble 0.2 = MachineDouble.finite (3602879701896397 / 18014398509481984) ∧
    roundToDouble 0.34 = MachineDouble.finite (6124895493223875 / 18014398509481984) ∧
    roundToDouble 0.56 = MachineDouble.finite (1261007895663739 / 2251799813685248) ∧
    computedSum (3602879701896397 / 36028797018963968) (3602879701896397 / 18014398509481984)
      0 = roundToDouble 0.30000000000000004 ∧
    computedSum (5404319552844595 / 18014398509481984) (5404319552844595 / 18014398509481984)
      (5404319552844595 / 18014398509481984) = roundToDouble 0.8999999999999999 ∧
    computedSum (6124895493223875 / 18014398509481984) (1261007895663739 / 2251799813685248)
      (3602879701896397 / 36028797018963968) = MachineDouble.finite (1 + 1 / 2 ^ 52) := by
  refine ⟨?_, ?_, ?_, ?_, ?_, ?_, ?_⟩ <;> decide!

/-- The double `0.3`, three times, has a computed sum not above 1. -/
theorem computedSum_three_tenths :
    (computedSum (5404319552844595 / 18014398509481984) (5404319552844595 / 18014398509481984)
      (5404319552844595 / 18014398509481984)).gt 1 = false := by
  decide!

/-- The computed sum of (0.5, 0.5, 0.5) is above 1. -/
theorem computedSum_three_halves : (computedSum 0.5 0.5 0.5).gt 1 = true := by
  decide!

/-- The computed sum of (0.25, 0.5, 0.125) is not above 1. -/
theorem computedSum_quarter_half_eighth : (computedSum 0.25 0.5 0.125).gt 1 = false := by
  decide!

/-- The computed sum of the initial partition (0.01, 0.01, 0.01) is not above 1. -/
theorem computedSum_initial : (computedSum 0.01 0.01 0.01).gt 1 = false := by
  decide!

/-- The computed sum of (2, -1, -1) is not above 1. -/
theorem computedSum_two_minus_one_minus_one : (computedSum 2 (-1) (-1)).gt 1 = false := by
  decide!

/-- The doubles 1e17, 7, -1e17 add up to 0: the 7 is lost in the first addition. -/
theorem computedSum_absorbed :
    computedSum (10 ^ 17) 7 (-(10 ^ 17)) = MachineDouble.finite 0 := by
  decide!

/-- The doubles 1e16+2, 1, -(1e16+2) add up to 2: the first addition is rounded up. -/
theorem computedSum_rounded_up :
    computedSum (10 ^ 16 + 2) 1 (-(10 ^ 16 + 2)) = MachineDouble.finite 2 := by
  decide!

/-- The doubles 1/2, 1/2, 2^-60 add up to 1: the last addend is lost. -/
theorem computedSum_lost_addend :
    computedSum (1 / 2) (1 / 2) (1 / 2 ^ 60) = MachineDouble.finite 1 := by
  decide!

/-- C1 (counterexample): the exact sum does not decide the call. On the freshly built
tables and the tag "LXe", the triple (1e17, 7, -1e17) has sum 7, above 1, yet the call
returns normally and stores it, because the doubles add up to 0; the triple
(1e16+2, 1, -(1e16+2)) has sum 1, yet the call is fatal, because the doubles add up to 2. -/
theorem C1_exact_sum_does_not_decide_the_call :
    ((10 ^ 17 : G4double) + 7 + -(10 ^ 17) > 1 ∧
      (SetTeflonReflectivitySpikeLobeBackscatter sampleUnits "LXe" ⟨10 ^ 17, 7, -(10 ^ 17)⟩
        (DefineMaterials sampleUnits 1 0.9935 0.2)).isOk = true ∧
      (SetTeflonReflectivitySpikeLobeBackscatter sampleUnits "LXe" ⟨10 ^ 17, 7, -(10 ^ 17)⟩
        (DefineMaterials sampleUnits 1 0.9935 0.2)).state.curve TeflonSurface.LXeTeflon
          "SPECULARLOBECONSTANT" =
        some [(6.91 * sampleUnits.eV, 7), (6.98 * sampleUnits.eV, 7),
          (7.05 * sampleUnits.eV, 7)]) ∧
    ((10 ^ 16 + 2 : G4double) + 1 + -(10 ^ 16 + 2) ≤ 1 ∧
      (SetTeflonReflectivitySpikeLobeBackscatter sampleUnits "LXe"
        ⟨10 ^ 16 + 2, 1, -(10 ^ 16 + 2)⟩
        (DefineMaterials sampleUnits 1 0.9935 0.2)).isFatal = true) := by
  have haccept : (computedSum (10 ^ 17) 7 (-(10 ^ 17))).gt 1 = false := by
    rw [computedSum_absorbed]
    simp [MachineDouble.gt]
  have hexceed : (computedSum (10 ^ 16 + 2) 1 (-(10 ^ 16 + 2))).gt 1 = true := by
    rw [computedSum_rounded_up]
    simp [MachineDouble.gt]
  obtain ⟨s', hs, -, h2, -⟩ :=
    SetTeflonReflectivitySpikeLobeBackscatter_of_accepted sampleUnits TeflonSurface.LXeTeflon
      ⟨10 ^ 17, 7, -(10 ^ 17)⟩ (DefineMaterials sampleUnits 1 0.9935 0.2) haccept
  have hs' : SetTeflonReflectivitySpikeLobeBackscatter sampleUnits "LXe"
      ⟨10 ^ 17, 7, -(10 ^ 17)⟩ (DefineMaterials sampleUnits 1 0.9935 0.2) = Outcome.ok s' := hs
  have hf : SetTeflonReflectivitySpikeLobeBackscatter sampleUnits "LXe"
      ⟨10 ^ 16 + 2, 1, -(10 ^ 16 + 2)⟩ (DefineMaterials sampleUnits 1 0.9935 0.2) =
      Outcome.fatal sumLargerThanOne (DefineMaterials sampleUnits 1 0.9935 0.2) :=
    SetTeflonReflectivitySpikeLobeBackscatter_of_exceeds sampleUnits TeflonSurface.LXeTeflon
      ⟨10 ^ 16 + 2, 1, -(10 ^ 16 + 2)⟩ (DefineMaterials sampleUnits 1 0.9935 0.2) hexceed
  rw [hs', hf]
  exact ⟨⟨by norm_num, rfl, h2⟩, by norm_num, rfl⟩

/-- C1 (amended): for each of the four surfaces and every triple of finite doubles, when the
sum as the code computes it, (spike + lobe) + backscatter with each addition rounded to the
nearest double, is not greater than 1, the combined setter returns normally and the spike,
lobe and backscatter curves of the named surface hold the three inputs at every point of
the three-point grid; when that computed sum is greater than 1 the call is fatal, with the
sum-too-large exception; and when neither addition rounds, the computed sum is the exact
sum. -/
theorem C1_combined_setter_follows_computed_sum (u : SystemOfUnits) (σ : TeflonSurface)
    (p : G4ThreeVector) (self : Xenon1tMaterials) :
    ((computedSum p.x p.y p.z).gt 1 = false →
      ∃ s', SetTeflonReflectivitySpikeLobeBackscatter u σ.tag p self = Outcome.ok s' ∧
        s'.curve σ "SPECULARSPIKECONSTANT" = some (flatCurve u p.x) ∧
        s'.curve σ "SPECULARLOBECONSTANT" = some (flatCurve u p.y) ∧
        s'.curve σ "BACKSCATTERCONSTANT" = some (flatCurve u p.z)) ∧
    ((computedSum p.x p.y p.z).gt 1 = true →
      SetTeflonReflectivitySpikeLobeBackscatter u σ.tag p self =
        Outcome.fatal sumLargerThanOne self) ∧
    (roundToDouble (p.x + p.y) = MachineDouble.finite (p.x + p.y) →
      roundToDouble (p.x + p.y + p.z) = MachineDouble.finite (p.x + p.y + p.z) →
      ((computedSum p.x p.y p.z).gt 1 = true ↔ p.x + p.y + p.z > 1)) := by
  refine ⟨?_, ?_, ?_⟩
  · intro h
    obtain ⟨s', hs, h1, h2, h3, -⟩ :=
      SetTeflonReflectivitySpikeLobeBackscatter_of_accepted u σ p self h
    exact ⟨s', hs, h1, h2, h3⟩
  · intro h
    exact SetTeflonReflectivitySpikeLobeBackscatter_of_exceeds u σ p self h
  · intro h1 h2
    simp [computedSum, MachineDouble.add, MachineDouble.gt, h1, h2]

/-- C1 (amended), on the inputs of the scenario: on the freshly built tables and the tag
"LXe", the double the literal 0.3 denotes, three times, has a computed sum not above 1, the
call returns normally and the spike curve holds that double at every grid point; with
(0.5, 0.5, 0.5) the computed sum is above 1 and the call is fatal. -/
theorem C1_combined_setter_witness :
    ((computedSum (5404319552844595 / 18014398509481984)
        (5404319552844595 / 18014398509481984)
        (5404319552844595 / 18014398509481984)).gt 1 = false ∧
      (SetTeflonReflectivitySpikeLobeBackscatter sampleUnits "LXe"
        ⟨5404319552844595 / 18014398509481984, 5404319552844595 / 18014398509481984,
          5404319552844595 / 18014398509481984⟩
        (DefineMaterials sampleUnits 1 0.9935 0.2)).isOk = true ∧
      (SetTeflonReflectivitySpikeLobeBackscatter sampleUnits "LXe"
        ⟨5404319552844595 / 18014398509481984, 5404319552844595 / 18014398509481984,
          5404319552844595 / 18014398509481984⟩
        (DefineMaterials sampleUnits 1 0.9935 0.2)).state.curve TeflonSurface.LXeTeflon
          "SPECULARSPIKECONSTANT" =
        some [(6.91 * sampleUnits.eV, 5404319552844595 / 18014398509481984),
          (6.98 * sampleUnits.eV, 5404319552844595 / 18014398509481984),
          (7.05 * sampleUnits.eV, 5404319552844595 / 18014398509481984)]) ∧
    ((computedSum 0.5 0.5 0.5).gt 1 = true ∧
      SetTeflonReflectivitySpikeLobeBackscatter sampleUnits "LXe" ⟨0.5, 0.5, 0.5⟩
          (DefineMaterials sampleUnits 1 0.9935 0.2) =
        Outcome.fatal sumLargerThanOne (DefineMaterials sampleUnits 1 0.9935 0.2)) := by
  obtain ⟨s', hs, h1, -⟩ :=
    (C1_combined_setter_follows_computed_sum sampleUnits TeflonSurface.LXeTeflon
      ⟨5404319552844595 / 18014398509481984, 5404319552844595 / 18014398509481984,
        5404319552844595 / 18014398509481984⟩
      (DefineMaterials sampleUnits 1 0.9935 0.2)).1 computedSum_three_tenths
  have hs' : SetTeflonReflectivitySpikeLobeBackscatter sampleUnits "LXe"
      ⟨5404319552844595 / 18014398509481984, 5404319552844595 / 18014398509481984,
        5404319552844595 / 18014398509481984⟩
      (DefineMaterials sampleUnits 1 0.9935 0.2) = Outcome.ok s' := hs
  rw [hs']
  exact ⟨⟨computedSum_three_tenths, rfl, h1⟩, computedSum_three_halves,
    (C1_combined_setter_follows_computed_sum sampleUnits TeflonSurface.LXeTeflon
      ⟨0.5, 0.5, 0.5⟩ (DefineMaterials sampleUnits 1 0.9935 0.2)).2.1
      computedSum_three_halves⟩

/-- C2: each of the four reflectivity setters, for every value and whatever the table held
before, leaves under "REFLECTIVITY" on its own surface the flat curve on the three-point
grid 6.91, 6.98, 7.05 eV with that value at every point. -/
theorem C2_reflectivity_setter_stores_flat_curve (u : SystemOfUnits) (v : G4double)
    (self : Xenon1tMaterials) :
    (SetLXeTeflonReflectivity u v self).pLXeTeflonOpticalSurface.GetMaterialPropertiesTable.GetProperty
        "REFLECTIVITY" = some [(6.91 * u.eV, v), (6.98 * u.eV, v), (7.05 * u.eV, v)] ∧
    (SetGXeTeflonReflectivity u v self).pGXeTeflonOpticalSurface.GetMaterialPropertiesTable.GetProperty
        "REFLECTIVITY" = some [(6.91 * u.eV, v), (6.98 * u.eV, v), (7.05 * u.eV, v)] ∧
    (SetLXeTeflonUnpolishedReflectivity u v
        self).pLXeTeflonUnpolishedOpticalSurface.GetMaterialPropertiesTable.GetProperty
        "REFLECTIVITY" = some [(6.91 * u.eV, v), (6.98 * u.eV, v), (7.05 * u.eV, v)] ∧
    (SetGXeTeflonUnpolishedReflectivity u v
        self).pGXeTeflonUnpolishedOpticalSurface.GetMaterialPropertiesTable.GetProperty
        "REFLECTIVITY" = some [(6.91 * u.eV, v), (6.98 * u.eV, v), (7.05 * u.eV, v)] :=
  ⟨rfl, rfl, rfl, rfl⟩

/-- The two fatal exceptions of the combined setter differ. -/
theorem sumLargerThanOne_ne_unknownReflector : sumLargerThanOne ≠ unknownReflector := by
  decide

/-- A tag is known exactly when it is the tag of one of the four surfaces. -/
theorem mem_knownTags_iff (type : String) :
    type ∈ knownTags ↔ ∃ σ : TeflonSurface, σ.tag = type := by
  constructor
  · intro h
    simp only [knownTags, List.mem_cons, List.mem_singleton, List.not_mem_nil, or_false] at h
    rcases h with h | h | h | h
    · exact ⟨TeflonSurface.LXeTeflon, h.symm⟩
    · exact ⟨TeflonSurface.GXeTeflon, h.symm⟩
    · exact ⟨TeflonSurface.LXeTeflonUnpolished, h.symm⟩
    · exact ⟨TeflonSurface.GXeTeflonUnpolished, h.symm⟩
  · rintro ⟨σ, rfl⟩
    cases σ <;> simp [knownTags, TeflonSurface.tag]

/-- On an unknown tag the combined setter raises the unknown-reflector exception before it
looks at the triple. -/
theorem SetTeflonReflectivitySpikeLobeBackscatter_unknown (u : SystemOfUnits) (type : String)
    (p : G4ThreeVector) (self : Xenon1tMaterials) (h : type ∉ knownTags) :
    SetTeflonReflectivitySpikeLobeBackscatter u type p self =
      Outcome.fatal unknownReflector self := by
  simp only [knownTags, List.mem_cons, List.mem_singleton, List.not_mem_nil, or_false,
    not_or] at h
  obtain ⟨h1, h2, h3, h4⟩ := h
  simp [SetTeflonReflectivitySpikeLobeBackscatter, h1, h2, h3, h4]

/-- On a known tag the combined setter either returns normally or raises the
sum-too-large exception. -/
theorem SetTeflonReflectivitySpikeLobeBackscatter_known (u : SystemOfUnits) (σ : TeflonSurface)
    (p : G4ThreeVector) (self : Xenon1tMaterials) :
    (SetTeflonReflectivitySpikeLobeBackscatter u σ.tag p self).exception? = none ∨
    (SetTeflonReflectivitySpikeLobeBackscatter u σ.tag p self).exception? =
      some sumLargerThanOne := by
  cases h : (computedSum p.x p.y p.z).gt 1 with
  | true =>
    right
    rw [SetTeflonReflectivitySpikeLobeBackscatter_of_exceeds u σ p self h]
    rfl
  | false =>
    left
    obtain ⟨s', hs, -⟩ := SetTeflonReflectivitySpikeLobeBackscatter_of_accepted u σ p self h
    rw [hs]
    rfl

/-- C3: the combined setter and the dump raise the fatal unknown-reflector exception exactly
when the tag is none of "LXe", "GXe", "LXeUnpolished", "GXeUnpolished"; for the setter this
holds whatever the triple is, also when it sums above 1. -/
theorem C3_unknown_tag_iff_unknown_reflector (u : SystemOfUnits) (type : String)
    (p : G4ThreeVector) (self : Xenon1tMaterials) :
    ((SetTeflonReflectivitySpikeLobeBackscatter u type p self).exception? =
        some unknownReflector ↔ type ∉ knownTags) ∧
    (DumpTeflonSurfaceParameters type self = Except.error unknownReflector ↔
        type ∉ knownTags) := by
  constructor
  · constructor
    · intro hex hmem
      obtain ⟨σ, rfl⟩ := (mem_knownTags_iff type).mp hmem
      rcases SetTeflonReflectivitySpikeLobeBackscatter_known u σ p self with h | h
      · rw [h] at hex; exact Option.noConfusion hex
      · rw [h] at hex
        exact sumLargerThanOne_ne_unknownReflector (Option.some.inj hex)
    · intro h
      rw [SetTeflonReflectivitySpikeLobeBackscatter_unknown u type p self h]
      rfl
  · constructor
    · intro hex hmem
      obtain ⟨σ, rfl⟩ := (mem_knownTags_iff _).mp hmem
      cases σ <;> simp [DumpTeflonSurfaceParameters, TeflonSurface.tag] at hex
    · intro h
      simp only [knownTags, List.mem_cons, List.mem_singleton, List.not_mem_nil, or_false,
        not_or] at h
      obtain ⟨h1, h2, h3, h4⟩ := h
      simp [DumpTeflonSurfaceParameters, h1, h2, h3, h4]

/-- C4: the four tags name four distinct surfaces, and for every surface and every accepted
triple (one whose sum, as the code computes it, is not greater than 1) the combined setter,
called with that surface's tag, changes only the spike, lobe and backscatter curves of that
surface: every other curve of its table (reflectivity included), its constant properties and
its other attributes, the whole of the other three surfaces and the material and element
registries are as before; the dump, called with the same tag, yields the table of that same
surface, before and after. -/
theorem C4_combined_setter_frame (u : SystemOfUnits) (σ : TeflonSurface) (p : G4ThreeVector)
    (self : Xenon1tMaterials) (h : (computedSum p.x p.y p.z).gt 1 = false) :
    Function.Injective TeflonSurface.tag ∧
    ∃ s', SetTeflonReflectivitySpikeLobeBackscatter u σ.tag p self = Outcome.ok s' ∧
      (∀ τ, τ ≠ σ → s'.surface τ = self.surface τ) ∧
      (∀ key, key ∉ partitionKeys → s'.curve σ key = self.curve σ key) ∧
      (s'.surface σ).theMaterialPropertiesTable.MCP =
        (self.surface σ).theMaterialPropertiesTable.MCP ∧
      (s'.surface σ).name = (self.surface σ).name ∧
      (s'.surface σ).model = (self.surface σ).model ∧
      (s'.surface σ).finish = (self.surface σ).finish ∧
      (s'.surface σ).type = (self.surface σ).type ∧
      (s'.surface σ).value = (self.surface σ).value ∧
      s'.materialTable = self.materialTable ∧
      s'.elementTable = self.elementTable ∧
      DumpTeflonSurfaceParameters σ.tag self =
        Except.ok (self.surface σ).GetMaterialPropertiesTable ∧
      DumpTeflonSurfaceParameters σ.tag s' =
        Except.ok (s'.surface σ).GetMaterialPropertiesTable := by
  refine ⟨?_, ?_⟩
  · intro a b hab
    cases a <;> cases b <;> first | rfl | exact absurd hab (by decide)
  · cases σ <;>
    · simp only [SetTeflonReflectivitySpikeLobeBackscatter, TeflonSurface.tag, h,
        Bool.false_eq_true, reduceIte, String.reduceEq]
      refine ⟨_, rfl, ?_, ?_, rfl, rfl, rfl, rfl, rfl, rfl, rfl, rfl, rfl, rfl⟩
      · intro τ hτ
        cases τ <;> first | rfl | exact absurd rfl hτ
      · intro key hkey
        simp only [partitionKeys, List.mem_cons, List.mem_singleton, List.not_mem_nil,
          or_false, not_or] at hkey
        obtain ⟨k1, k2, k3⟩ := hkey
        simp [Xenon1tMaterials.curve, Xenon1tMaterials.surface,
          G4OpticalSurface.GetMaterialPropertiesTable,
          G4OpticalSurface.SetMaterialPropertiesTable, G4MaterialPropertiesTable.GetProperty,
          G4MaterialPropertiesTable.AddProperty, G4MaterialPropertiesTable.RemoveProperty,
          k1, k2, k3]

/-- C4, on a concrete input: the tag "GXe" with (0.25, 0.5, 0.125), whose computed sum is not
above 1, on the freshly built tables returns normally, the liquid-xenon surface is as before
and so is the reflectivity curve of the gas-xenon surface. -/
theorem C4_combined_setter_frame_witness :
    (computedSum 0.25 0.5 0.125).gt 1 = false ∧
    (SetTeflonReflectivitySpikeLobeBackscatter sampleUnits "GXe" ⟨0.25, 0.5, 0.125⟩
      (DefineMaterials sampleUnits 1 0.9935 0.2)).isOk = true ∧
    (SetTeflonReflectivitySpikeLobeBackscatter sampleUnits "GXe" ⟨0.25, 0.5, 0.125⟩
      (DefineMaterials sampleUnits 1 0.9935 0.2)).state.pLXeTeflonOpticalSurface =
      (DefineMaterials sampleUnits 1 0.9935 0.2).pLXeTeflonOpticalSurface ∧
    (SetTeflonReflectivitySpikeLobeBackscatter sampleUnits "GXe" ⟨0.25, 0.5, 0.125⟩
      (DefineMaterials sampleUnits 1 0.9935 0.2)).state.curve TeflonSurface.GXeTeflon
        "REFLECTIVITY" =
      some [(6.91 * sampleUnits.eV, 0.99), (6.98 * sampleUnits.eV, 0.99),
        (7.05 * sampleUnits.eV, 0.99)] := by
  obtain ⟨s', hs, hother, hkeys, -⟩ :=
    (C4_combined_setter_frame sampleUnits TeflonSurface.GXeTeflon ⟨0.25, 0.5, 0.125⟩
      (DefineMaterials sampleUnits 1 0.9935 0.2) computedSum_quarter_half_eighth).2
  have hs' : SetTeflonReflectivitySpikeLobeBackscatter sampleUnits "GXe" ⟨0.25, 0.5, 0.125⟩
      (DefineMaterials sampleUnits 1 0.9935 0.2) = Outcome.ok s' := hs
  rw [hs']
  refine ⟨computedSum_quarter_half_eighth, rfl, hother TeflonSurface.LXeTeflon (by decide), ?_⟩
  exact (hkeys "REFLECTIVITY" (by decide)).trans rfl

/-- The fatal message of the hadronic selector enumerates six names. -/
theorem listedChoices_hadronicChoicesMessage :
    listedChoices hadronicChoicesMessage = documentedHadronicNames := by
  rfl

/-- The fatal message of the EM selector enumerates three names. -/
theorem listedChoices_emChoicesMessage :
    listedChoices emChoicesMessage = emModelNames := by
  rfl

/-- The hadronic selector returns normally on each name its message enumerates. -/
theorem SetHadronicModel_documented (name : String) (self : Xenon1tPhysicsList)
    (h : name ∈ documentedHadronicNames) : (SetHadronicModel name self).isOk = true := by
  simp only [documentedHadronicNames, List.mem_cons, List.mem_singleton, List.not_mem_nil,
    or_false] at h
  rcases h with h | h | h | h | h | h <;> subst h <;> rfl

/-- The hadronic selector returns normally exactly on the eight names it compares with. -/
theorem SetHadronicModel_isOk_iff (name : String) (self : Xenon1tPhysicsList) :
    (SetHadronicModel name self).isOk = true ↔
      name ∈ ["QGSP_BIC_HP", "QGSP_BIC", "FTFP_BERT_HP", "QBBC", "INCLXX", "QGSP_BERT_HP",
        "QGSP_BERT", "Shielding"] := by
  constructor
  · intro h
    by_contra hn
    simp only [List.mem_cons, List.mem_singleton, List.not_mem_nil, or_false, not_or] at hn
    obtain ⟨h1, h2, h3, h4, h5, h6, h7, h8⟩ := hn
    simp [SetHadronicModel, h1, h2, h3, h4, h5, h6, h7, h8, Outcome.isOk] at h
  · intro h
    simp only [List.mem_cons, List.mem_singleton, List.not_mem_nil, or_false] at h
    rcases h with h | h | h | h | h | h | h | h <;> subst h <;> rfl

/-- On a name outside the eight, the hadronic selector raises its fatal exception and leaves
the list as it was. -/
theorem SetHadronicModel_not_ok (name : String) (self : Xenon1tPhysicsList)
    (h : (SetHadronicModel name self).isOk = false) :
    SetHadronicModel name self = Outcome.fatal badHadronicPhysicsList self := by
  have hn : ¬ name ∈ ["QGSP_BIC_HP", "QGSP_BIC", "FTFP_BERT_HP", "QBBC", "INCLXX",
      "QGSP_BERT_HP", "QGSP_BERT", "Shielding"] := by
    intro hm
    rw [(SetHadronicModel_isOk_iff name self).mpr hm] at h
    exact Bool.noConfusion h
  simp only [List.mem_cons, List.mem_singleton, List.not_mem_nil, or_false, not_or] at hn
  obtain ⟨h1, h2, h3, h4, h5, h6, h7, h8⟩ := hn
  simp [SetHadronicModel, h1, h2, h3, h4, h5, h6, h7, h8]

/-- C5 (counterexample): "QGSP_BIC" and "INCLXX" are not among the six names the fatal
message of the hadronic selector enumerates, yet on the freshly constructed list the
selector returns normally for both and installs the corresponding builder in the
hadron-inelastic slot; "QBBC" returns normally and "bogus" is fatal. -/
theorem C5_hadronic_selector_accepts_undocumented_names :
    "QGSP_BIC" ∉ listedChoices hadronicChoicesMessage ∧
    "INCLXX" ∉ listedChoices hadronicChoicesMessage ∧
    (SetHadronicModel "QGSP_BIC" Xenon1tPhysicsList.construct).isOk = true ∧
    (SetHadronicModel "INCLXX" Xenon1tPhysicsList.construct).isOk = true ∧
    ((SetHadronicModel "QGSP_BIC" Xenon1tPhysicsList.construct).state.physicsVector.map
        (fun q => q.cls)).contains PhysicsClass.G4HadronPhysicsQGSP_BIC = true ∧
    ((SetHadronicModel "INCLXX" Xenon1tPhysicsList.construct).state.physicsVector.map
        (fun q => q.cls)).contains PhysicsClass.G4HadronPhysicsINCLXX = true ∧
    (SetHadronicModel "QBBC" Xenon1tPhysicsList.construct).isOk = true ∧
    (SetHadronicModel "bogus" Xenon1tPhysicsList.construct).isFatal = true := by
  rw [listedChoices_hadronicChoicesMessage]
  decide

/-- C5 (amended): the hadronic selector returns normally exactly on the eight names its
branches compare with (QGSP_BIC_HP, QGSP_BIC, FTFP_BERT_HP, QBBC, INCLXX, QGSP_BERT_HP,
QGSP_BERT, Shielding), among which are all six names its fatal message enumerates; on every
other string it is fatal and leaves the list as it was. -/
theorem C5_hadronic_selector_accepts_exactly_eight_names (name : String)
    (self : Xenon1tPhysicsList) :
    ((SetHadronicModel name self).isOk = true ↔ name ∈ hadronicModelNames) ∧
    (name ∉ hadronicModelNames →
      SetHadronicModel name self = Outcome.fatal badHadronicPhysicsList self) ∧
    hadronicModelNames.length = 8 ∧
    (∀ n ∈ listedChoices hadronicChoicesMessage, n ∈ hadronicModelNames) := by
  refine ⟨SetHadronicModel_isOk_iff name self, ?_, rfl, ?_⟩
  · intro hn
    apply SetHadronicModel_not_ok name self
    cases hok : (SetHadronicModel name self).isOk with
    | true => exact absurd ((SetHadronicModel_isOk_iff name self).mp hok) hn
    | false => rfl
  · rw [listedChoices_hadronicChoicesMessage]
    decide

/-- C5 (amended), on the inputs of the scenario: "QBBC" returns normally and "bogus" is
fatal, on the freshly constructed list. -/
theorem C5_hadronic_selector_witness :
    (SetHadronicModel "QBBC" Xenon1tPhysicsList.construct).isOk = true ∧
    "bogus" ∉ hadronicModelNames ∧
    SetHadronicModel "bogus" Xenon1tPhysicsList.construct =
      Outcome.fatal badHadronicPhysicsList Xenon1tPhysicsList.construct :=
  ⟨(C5_hadronic_selector_accepts_exactly_eight_names "QBBC"
      Xenon1tPhysicsList.construct).1.mpr (by decide),
   by decide,
   (C5_hadronic_selector_accepts_exactly_eight_names "bogus"
      Xenon1tPhysicsList.construct).2.1 (by decide)⟩

/-- C6 (counterexample): on "bogus" the call is fatal with the hadronic message, but the
message does not enumerate seven names, and the names it enumerates are not exactly the
names the selector accepts. -/
theorem C6_message_is_not_the_seven_accepted_names :
    (SetHadronicModel "bogus" Xenon1tPhysicsList.construct).exception? =
      some badHadronicPhysicsList ∧
    (listedChoices badHadronicPhysicsList.description).length ≠ 7 ∧
    ¬ (∀ n : String, n ∈ listedChoices badHadronicPhysicsList.description ↔
        (SetHadronicModel n Xenon1tPhysicsList.construct).isOk = true) := by
  refine ⟨rfl, ?_, ?_⟩
  · show (listedChoices hadronicChoicesMessage).length ≠ 7
    rw [listedChoices_hadronicChoicesMessage]
    decide
  · intro hall
    have h := (hall "INCLXX").mpr (by rfl)
    have h' : "INCLXX" ∈ listedChoices hadronicChoicesMessage := h
    rw [listedChoices_hadronicChoicesMessage] at h'
    revert h'
    decide

/-- C6 (amended): for every name the hadronic selector does not accept, the call is fatal,
the list is left as it was, and the message enumerates six model names (QGSP_BIC_HP,
QGSP_BERT_HP, FTFP_BERT_HP, QBBC, QGSP_BERT, Shielding), each of which the selector
accepts on every list. -/
theorem C6_fatal_message_names_six_accepted_models (name : String)
    (self : Xenon1tPhysicsList) (h : (SetHadronicModel name self).isOk = false) :
    SetHadronicModel name self = Outcome.fatal badHadronicPhysicsList self ∧
    badHadronicPhysicsList.description = hadronicChoicesMessage ∧
    listedChoices hadronicChoicesMessage =
      ["QGSP_BIC_HP", "QGSP_BERT_HP", "FTFP_BERT_HP", "QBBC", "QGSP_BERT", "Shielding"] ∧
    (listedChoices hadronicChoicesMessage).length = 6 ∧
    (∀ n ∈ listedChoices hadronicChoicesMessage, ∀ other : Xenon1tPhysicsList,
      (SetHadronicModel n other).isOk = true) := by
  refine ⟨SetHadronicModel_not_ok name self h, rfl, listedChoices_hadronicChoicesMessage, ?_, ?_⟩
  · rw [listedChoices_hadronicChoicesMessage]; rfl
  · intro n hn other
    rw [listedChoices_hadronicChoicesMessage] at hn
    exact SetHadronicModel_documented n other hn

/-- C6 (amended), on the input of the scenario: the name "bogus" on the freshly constructed
list. -/
theorem C6_fatal_message_witness :
    (SetHadronicModel "bogus" Xenon1tPhysicsList.construct).isOk = false ∧
    SetHadronicModel "bogus" Xenon1tPhysicsList.construct =
      Outcome.fatal badHadronicPhysicsList Xenon1tPhysicsList.construct ∧
    (listedChoices hadronicChoicesMessage).length = 6 :=
  ⟨by decide,
   (C6_fatal_message_names_six_accepted_models "bogus" Xenon1tPhysicsList.construct
      (by decide)).1,
   (C6_fatal_message_names_six_accepted_models "bogus" Xenon1tPhysicsList.construct
      (by decide)).2.2.2.1⟩

/-- C7: the EM selector returns normally exactly on "emstandard", "emlivermore" and
"empenelope"; on every other string it is fatal, leaves the list as it was, and its message
enumerates exactly these three names as the choices. -/
theorem C7_em_selector_accepts_exactly_three_names (name : String)
    (self : Xenon1tPhysicsList) :
    ((SetEMlowEnergyModel name self).isOk = true ↔
      name ∈ ["emstandard", "emlivermore", "empenelope"]) ∧
    (name ∉ ["emstandard", "emlivermore", "empenelope"] →
      SetEMlowEnergyModel name self = Outcome.fatal badEMPhysicsList self ∧
      listedChoices badEMPhysicsList.description =
        ["emstandard", "emlivermore", "empenelope"]) := by
  have hfatal : name ∉ ["emstandard", "emlivermore", "empenelope"] →
      SetEMlowEnergyModel name self = Outcome.fatal badEMPhysicsList self := by
    intro hn
    simp only [List.mem_cons, List.mem_singleton, List.not_mem_nil, or_false, not_or] at hn
    obtain ⟨h1, h2, h3⟩ := hn
    simp [SetEMlowEnergyModel, h1, h2, h3]
  refine ⟨⟨?_, ?_⟩, fun hn => ⟨hfatal hn, listedChoices_emChoicesMessage⟩⟩
  · intro h
    by_contra hn
    rw [hfatal hn] at h
    exact Bool.noConfusion h
  · intro h
    simp only [List.mem_cons, List.mem_singleton, List.not_mem_nil, or_false] at h
    rcases h with h | h | h <;> subst h <;> rfl

/-- C7, on concrete inputs: "empenelope" is accepted, and "bogus" is fatal with the message
naming the three choices. -/
theorem C7_em_selector_witness :
    (SetEMlowEnergyModel "empenelope" Xenon1tPhysicsList.construct).isOk = true ∧
    "bogus" ∉ ["emstandard", "emlivermore", "empenelope"] ∧
    SetEMlowEnergyModel "bogus" Xenon1tPhysicsList.construct =
      Outcome.fatal badEMPhysicsList Xenon1tPhysicsList.construct ∧
    listedChoices badEMPhysicsList.description = ["emstandard", "emlivermore", "empenelope"] :=
  ⟨((C7_em_selector_accepts_exactly_three_names "empenelope"
        Xenon1tPhysicsList.construct).1).mpr (by decide),
   by decide,
   (C7_em_selector_accepts_exactly_three_names "bogus" Xenon1tPhysicsList.construct).2
      (by decide)⟩

/-- The constructed list holds the default models in the two slots. -/
theorem construct_eq_withModels :
    Xenon1tPhysicsList.construct = withModels EMModel.emstandard HadronicModel.QGSP_BERT := by
  decide

/-- A successful EM selection on a list in slotted form moves the EM slot only. -/
theorem SetEMlowEnergyModel_withModels (name : String) (e : EMModel) (h : HadronicModel)
    (st : Xenon1tPhysicsList)
    (hrun : SetEMlowEnergyModel name (withModels e h) = Outcome.ok st) :
    st = withModels ((EMModel.ofName name).getD e) h := by
  unfold SetEMlowEnergyModel at hrun
  unfold EMModel.ofName
  split_ifs at hrun ⊢ with h1 h2 h3
  · cases hrun; cases e <;> cases h <;> decide
  · cases hrun; cases e <;> cases h <;> decide
  · cases hrun; cases e <;> cases h <;> decide

/-- A successful hadronic selection on a list in slotted form moves the hadronic slot only. -/
theorem SetHadronicModel_withModels (name : String) (e : EMModel) (h : HadronicModel)
    (st : Xenon1tPhysicsList)
    (hrun : SetHadronicModel name (withModels e h) = Outcome.ok st) :
    st = withModels e ((HadronicModel.ofName name).getD h) := by
  unfold SetHadronicModel at hrun
  unfold HadronicModel.ofName
  split_ifs at hrun ⊢ with h1 h2 h3 h4 h5 h6 h7 h8
  all_goals (cases hrun; cases e <;> cases h <;> decide)

/-- Every successful sequence of selector calls keeps the list in slotted form, with the
most recently selected models in the two slots. -/
theorem runPhysicsCalls_withModels (calls : List PhysicsCall) :
    ∀ (e : EMModel) (h : HadronicModel) (st : Xenon1tPhysicsList),
      runPhysicsCalls calls (withModels e h) = Outcome.ok st →
      st = withModels (selectedEMFrom e calls) (selectedHadronicFrom h calls) := by
  induction calls with
  | nil =>
    intro e h st hrun
    cases hrun
    rfl
  | cons c cs ih =>
    intro e h st hrun
    cases c with
    | SetEMlowEnergyModel name =>
      simp only [runPhysicsCalls, PhysicsCall.run] at hrun
      cases hstep : SetEMlowEnergyModel name (withModels e h) with
      | ok s1 =>
        rw [hstep] at hrun
        have h1 := SetEMlowEnergyModel_withModels name e h s1 hstep
        subst h1
        exact ih _ _ st hrun
      | fatal ex s1 =>
        rw [hstep] at hrun
        exact Outcome.noConfusion hrun
    | SetHadronicModel name =>
      simp only [runPhysicsCalls, PhysicsCall.run] at hrun
      cases hstep : SetHadronicModel name (withModels e h) with
      | ok s1 =>
        rw [hstep] at hrun
        have h1 := SetHadronicModel_withModels name e h s1 hstep
        subst h1
        exact ih _ _ st hrun
      | fatal ex s1 =>
        rw [hstep] at hrun
        exact Outcome.noConfusion hrun

/-- A list in slotted form holds one EM low-energy constructor and one hadronic-inelastic
constructor, namely the registrations of its two models. -/
theorem withModels_counts (e : EMModel) (h : HadronicModel) :
    (withModels e h).physicsVector.filter isEMLowEnergy = [e.registration] ∧
    (withModels e h).physicsVector.filter isHadronInelastic = [h.registration] := by
  cases e <;> cases h <;> decide

/-- A name the EM selector accepts on some list is one of the three models. -/
theorem EMModel_ofName_of_ok (name : String) (self st : Xenon1tPhysicsList)
    (hrun : SetEMlowEnergyModel name self = Outcome.ok st) :
    ∃ m, EMModel.ofName name = some m := by
  unfold SetEMlowEnergyModel at hrun
  unfold EMModel.ofName
  split_ifs at hrun ⊢ with h1 h2 h3 <;> exact ⟨_, rfl⟩

/-- A name the hadronic selector accepts on some list is one of the eight models. -/
theorem HadronicModel_ofName_of_ok (name : String) (self st : Xenon1tPhysicsList)
    (hrun : SetHadronicModel name self = Outcome.ok st) :
    ∃ m, HadronicModel.ofName name = some m := by
  unfold SetHadronicModel at hrun
  unfold HadronicModel.ofName
  split_ifs at hrun ⊢ with h1 h2 h3 h4 h5 h6 h7 h8 <;> exact ⟨_, rfl⟩

/-- The EM selector returns normally on a list in slotted form as soon as the name is one
of the three models. -/
theorem SetEMlowEnergyModel_ok_of_ofName (name : String) (m e : EMModel) (h : HadronicModel)
    (hm : EMModel.ofName name = some m) :
    SetEMlowEnergyModel name (withModels e h) = Outcome.ok (withModels m h) := by
  unfold EMModel.ofName at hm
  unfold SetEMlowEnergyModel
  split_ifs at hm ⊢ with h1 h2 h3 <;>
    (cases hm; cases e <;> cases h <;> decide)

/-- The hadronic selector returns normally on a list in slotted form as soon as the name is
one of the eight models. -/
theorem SetHadronicModel_ok_of_ofName (name : String) (m : HadronicModel) (e : EMModel)
    (h : HadronicModel) (hm : HadronicModel.ofName name = some m) :
    SetHadronicModel name (withModels e h) = Outcome.ok (withModels e m) := by
  unfold HadronicModel.ofName at hm
  unfold SetHadronicModel
  split_ifs at hm ⊢ with h1 h2 h3 h4 h5 h6 h7 h8 <;>
    (cases hm; cases e <;> cases h <;> decide)

/-- C8: in every state reached from the constructor by a sequence of selector calls that
all return normally, the list holds exactly one EM low-energy constructor and exactly one
hadronic-inelastic constructor, each the registration of the model most recently selected
(of the constructor's own choice when none was selected); the list is the constructor's
list with only the slots 2 and 6 rewritten, and the other members are the constructor's;
hence selecting a then b gives the same list as selecting b alone. -/
theorem C8_one_active_model_per_family (calls : List PhysicsCall) (st : Xenon1tPhysicsList)
    (hrun : runPhysicsCalls calls Xenon1tPhysicsList.construct = Outcome.ok st) :
    st.physicsVector.filter isEMLowEnergy = [(selectedEM calls).registration] ∧
    st.physicsVector.filter isHadronInelastic = [(selectedHadronic calls).registration] ∧
    st.physicsVector =
      (Xenon1tPhysicsList.construct.physicsVector.set 2
        (selectedHadronic calls).registration).set 6 (selectedEM calls).registration ∧
    Xenon1tPhysicsList.construct.physicsVector[2]? = some HadronicModel.QGSP_BERT.registration ∧
    Xenon1tPhysicsList.construct.physicsVector[6]? = some EMModel.emstandard.registration ∧
    st.VerboseLevel = Xenon1tPhysicsList.construct.VerboseLevel ∧
    st.OpVerbLevel = Xenon1tPhysicsList.construct.OpVerbLevel ∧
    st.verboseLevel = Xenon1tPhysicsList.construct.verboseLevel ∧
    st.OpticalPhysicsModel = Xenon1tPhysicsList.construct.OpticalPhysicsModel ∧
    (∀ (a b : String) (s1 s2 : Xenon1tPhysicsList),
      SetEMlowEnergyModel a st = Outcome.ok s1 → SetEMlowEnergyModel b s1 = Outcome.ok s2 →
      SetEMlowEnergyModel b st = Outcome.ok s2) ∧
    (∀ (a b : String) (s1 s2 : Xenon1tPhysicsList),
      SetHadronicModel a st = Outcome.ok s1 → SetHadronicModel b s1 = Outcome.ok s2 →
      SetHadronicModel b st = Outcome.ok s2) := by
  rw [construct_eq_withModels] at hrun
  have hst := runPhysicsCalls_withModels calls _ _ st hrun
  change st = withModels (selectedEM calls) (selectedHadronic calls) at hst
  subst hst
  refine ⟨(withModels_counts _ _).1, (withModels_counts _ _).2, rfl, by decide, by decide,
    rfl, rfl, rfl, rfl, ?_, ?_⟩
  · intro a b s1 s2 ha hb
    have h1 := SetEMlowEnergyModel_withModels a _ _ s1 ha
    subst h1
    obtain ⟨m, hm⟩ := EMModel_ofName_of_ok b _ _ hb
    rw [SetEMlowEnergyModel_ok_of_ofName b m _ _ hm] at hb
    rw [SetEMlowEnergyModel_ok_of_ofName b m _ _ hm]
    exact hb
  · intro a b s1 s2 ha hb
    have h1 := SetHadronicModel_withModels a _ _ s1 ha
    subst h1
    obtain ⟨m, hm⟩ := HadronicModel_ofName_of_ok b _ _ hb
    rw [SetHadronicModel_ok_of_ofName b m _ _ hm] at hb
    rw [SetHadronicModel_ok_of_ofName b m _ _ hm]
    exact hb

/-- C8, on a concrete run: livermore, then QBBC, then penelope, on the constructed list;
the EM slot ends with the Penelope builder and the hadronic slot with the QBBC builder. -/
theorem C8_one_active_model_witness :
    runPhysicsCalls
        [PhysicsCall.SetEMlowEnergyModel "emlivermore", PhysicsCall.SetHadronicModel "QBBC",
          PhysicsCall.SetEMlowEnergyModel "empenelope"] Xenon1tPhysicsList.construct =
      Outcome.ok (withModels EMModel.empenelope HadronicModel.QBBC) ∧
    (withModels EMModel.empenelope HadronicModel.QBBC).physicsVector.filter isEMLowEnergy =
      [EMModel.empenelope.registration] ∧
    (withModels EMModel.empenelope HadronicModel.QBBC).physicsVector.filter isHadronInelastic =
      [HadronicModel.QBBC.registration] :=
  ⟨by decide,
   (C8_one_active_model_per_family
      [PhysicsCall.SetEMlowEnergyModel "emlivermore", PhysicsCall.SetHadronicModel "QBBC",
        PhysicsCall.SetEMlowEnergyModel "empenelope"]
      (withModels EMModel.empenelope HadronicModel.QBBC) (by decide)).1,
   (C8_one_active_model_per_family
      [PhysicsCall.SetEMlowEnergyModel "emlivermore", PhysicsCall.SetHadronicModel "QBBC",
        PhysicsCall.SetEMlowEnergyModel "empenelope"]
      (withModels EMModel.empenelope HadronicModel.QBBC) (by decide)).2.1⟩

/-- Flat partition curves whose computed sum is not above 1 pass the code's test at every
grid point. -/
theorem PartitionAccepted_of_FlatPartition (u : SystemOfUnits) (self : Xenon1tMaterials)
    (σ : TeflonSurface) (h : FlatPartition u self σ) :
    PartitionAccepted (self.surface σ).GetMaterialPropertiesTable := by
  obtain ⟨x, y, z, hsum, hx, hy, hz⟩ := h
  refine ⟨flatCurve u x, flatCurve u y, flatCurve u z, hx, hy, hz, rfl, rfl, ?_⟩
  intro q hq
  simp only [flatCurve, overrideGrid, List.map_cons, List.map_nil, pointwiseComputedSum,
    List.mem_cons, List.mem_singleton, List.not_mem_nil, or_false] at hq
  rcases hq with hq | hq | hq <;> (subst hq; exact hsum)

/-- The tables `DefineMaterials` builds have flat partition curves of value 0.01. -/
theorem DefineMaterials_FlatPartition (u : SystemOfUnits) (a b c : G4double)
    (σ : TeflonSurface) : FlatPartition u (DefineMaterials u a b c) σ := by
  refine ⟨0.01, 0.01, 0.01, computedSum_initial, ?_, ?_, ?_⟩ <;>
    cases σ <;> rfl

/-- A reflectivity setter leaves every partition curve of every surface alone. -/
theorem reflectivitySetter_FlatPartition (u : SystemOfUnits) (τ : TeflonSurface)
    (v : G4double) (self : Xenon1tMaterials) (σ : TeflonSurface)
    (h : FlatPartition u self σ) : FlatPartition u (reflectivitySetter u τ v self) σ := by
  obtain ⟨x, y, z, hsum, hx, hy, hz⟩ := h
  refine ⟨x, y, z, hsum, ?_, ?_, ?_⟩
  · rw [← hx]; cases τ <;> cases σ <;> rfl
  · rw [← hy]; cases τ <;> cases σ <;> rfl
  · rw [← hz]; cases τ <;> cases σ <;> rfl

/-- A combined setter that returns normally leaves flat partition curves on every surface. -/
theorem SetTeflonReflectivitySpikeLobeBackscatter_FlatPartition (u : SystemOfUnits)
    (type : String) (p : G4ThreeVector) (self st : Xenon1tMaterials)
    (hrun : SetTeflonReflectivitySpikeLobeBackscatter u type p self = Outcome.ok st)
    (σ : TeflonSurface) (h : FlatPartition u self σ) : FlatPartition u st σ := by
  by_cases hk : type ∈ knownTags
  · obtain ⟨τ, rfl⟩ := (mem_knownTags_iff type).mp hk
    cases hsum : (computedSum p.x p.y p.z).gt 1 with
    | true =>
      rw [SetTeflonReflectivitySpikeLobeBackscatter_of_exceeds u τ p self hsum] at hrun
      exact Outcome.noConfusion hrun
    | false =>
      obtain ⟨s', hs, h1, h2, h3, hother⟩ :=
        SetTeflonReflectivitySpikeLobeBackscatter_of_accepted u τ p self hsum
      rw [hs] at hrun
      cases hrun
      by_cases hστ : σ = τ
      · subst hστ
        exact ⟨p.x, p.y, p.z, hsum, h1, h2, h3⟩
      · obtain ⟨x, y, z, hxyz, hx, hy, hz⟩ := h
        have hsame : st.surface σ = self.surface σ := hother σ hστ
        refine ⟨x, y, z, hxyz, ?_, ?_, ?_⟩
        · rw [← hx]; simp only [Xenon1tMaterials.curve, hsame]
        · rw [← hy]; simp only [Xenon1tMaterials.curve, hsame]
        · rw [← hz]; simp only [Xenon1tMaterials.curve, hsame]
  · rw [SetTeflonReflectivitySpikeLobeBackscatter_unknown u type p self hk] at hrun
    exact Outcome.noConfusion hrun

/-- One override call that returns normally keeps flat partition curves on every surface. -/
theorem MaterialsCall_run_FlatPartition (u : SystemOfUnits) (c : MaterialsCall)
    (self st : Xenon1tMaterials) (hrun : c.run u self = Outcome.ok st)
    (h : ∀ σ, FlatPartition u self σ) : ∀ σ, FlatPartition u st σ := by
  intro σ
  cases c with
  | SetLXeTeflonReflectivity v =>
    cases hrun
    exact reflectivitySetter_FlatPartition u TeflonSurface.LXeTeflon v self σ (h σ)
  | SetGXeTeflonReflectivity v =>
    cases hrun
    exact reflectivitySetter_FlatPartition u TeflonSurface.GXeTeflon v self σ (h σ)
  | SetLXeTeflonUnpolishedReflectivity v =>
    cases hrun
    exact reflectivitySetter_FlatPartition u TeflonSurface.LXeTeflonUnpolished v self σ (h σ)
  | SetGXeTeflonUnpolishedReflectivity v =>
    cases hrun
    exact reflectivitySetter_FlatPartition u TeflonSurface.GXeTeflonUnpolished v self σ (h σ)
  | SetTeflonReflectivitySpikeLobeBackscatter type p =>
    exact SetTeflonReflectivitySpikeLobeBackscatter_FlatPartition u type p self st hrun σ (h σ)

/-- A sequence of override calls that all return normally keeps flat partition curves on
every surface. -/
theorem runMaterialsCalls_FlatPartition (u : SystemOfUnits) (calls : List MaterialsCall) :
    ∀ (self st : Xenon1tMaterials), runMaterialsCalls u calls self = Outcome.ok st →
      (∀ σ, FlatPartition u self σ) → ∀ σ, FlatPartition u st σ := by
  induction calls with
  | nil =>
    intro self st hrun h
    cases hrun
    exact h
  | cons c cs ih =>
    intro self st hrun h
    simp only [runMaterialsCalls] at hrun
    cases hstep : c.run u self with
    | ok s1 =>
      rw [hstep] at hrun
      exact ih s1 st hrun (MaterialsCall_run_FlatPartition u c self s1 hstep h)
    | fatal ex s1 =>
      rw [hstep] at hrun
      exact Outcome.noConfusion hrun

/-- C9 (counterexample): the tag "LXe" with (1/2, 1/2, 2^-60) on the freshly built tables
returns normally, because the doubles add up to exactly 1, and in the state it leaves the
three values of the liquid-xenon surface sum to 1 + 2^-60 at every grid point, above 1. -/
theorem C9_stored_partition_can_exceed_one :
    runMaterialsCalls sampleUnits
        [MaterialsCall.SetTeflonReflectivitySpikeLobeBackscatter "LXe" ⟨1 / 2, 1 / 2, 1 / 2 ^ 60⟩]
        (DefineMaterials sampleUnits 1 0.9935 0.2) =
      Outcome.ok (SetTeflonReflectivitySpikeLobeBackscatter sampleUnits "LXe"
        ⟨1 / 2, 1 / 2, 1 / 2 ^ 60⟩ (DefineMaterials sampleUnits 1 0.9935 0.2)).state ∧
    ¬ PartitionWithinOne
      ((SetTeflonReflectivitySpikeLobeBackscatter sampleUnits "LXe" ⟨1 / 2, 1 / 2, 1 / 2 ^ 60⟩
        (DefineMaterials sampleUnits 1 0.9935 0.2)).state.surface
        TeflonSurface.LXeTeflon).GetMaterialPropertiesTable := by
  have haccept : (computedSum (1 / 2) (1 / 2) (1 / 2 ^ 60)).gt 1 = false := by
    rw [computedSum_lost_addend]
    simp [MachineDouble.gt]
  obtain ⟨s', hs, h1, h2, h3, -⟩ :=
    SetTeflonReflectivitySpikeLobeBackscatter_of_accepted sampleUnits TeflonSurface.LXeTeflon
      ⟨1 / 2, 1 / 2, 1 / 2 ^ 60⟩ (DefineMaterials sampleUnits 1 0.9935 0.2) haccept
  have hs' : SetTeflonReflectivitySpikeLobeBackscatter sampleUnits "LXe"
      ⟨1 / 2, 1 / 2, 1 / 2 ^ 60⟩ (DefineMaterials sampleUnits 1 0.9935 0.2) = Outcome.ok s' := hs
  refine ⟨?_, ?_⟩
  · simp only [runMaterialsCalls, MaterialsCall.run, Outcome.andThen]
    rw [hs']
    rfl
  · rw [hs']
    rintro ⟨spike, lobe, backscatter, hspike, hlobe, hback, -, -, hall⟩
    have e1 : spike = flatCurve sampleUnits (1 / 2) := Option.some.inj (hspike.symm.trans h1)
    have e2 : lobe = flatCurve sampleUnits (1 / 2) := Option.some.inj (hlobe.symm.trans h2)
    have e3 : backscatter = flatCurve sampleUnits (1 / 2 ^ 60) :=
      Option.some.inj (hback.symm.trans h3)
    subst e1 e2 e3
    have hq := hall (6.91 * sampleUnits.eV, 1 / 2 + 1 / 2 + 1 / 2 ^ 60)
      (by simp [flatCurve, overrideGrid, pointwiseSum])
    norm_num at hq

/-- C9 (amended): in every state reached from `DefineMaterials` (whatever its arguments) by
a sequence of calls to the four reflectivity setters and to the combined setter that all
return normally, on each of the four Teflon surfaces the spike, lobe and backscatter curves
are present, share their photon energies, and at every grid point the sum of the three
values, added as the code adds them (in double precision, left to right), is not greater
than 1. -/
theorem C9_computed_partition_sum_not_above_one (u : SystemOfUnits)
    (pWABSL pEPTFEReflectivity pGdConcentration : G4double) (calls : List MaterialsCall)
    (st : Xenon1tMaterials)
    (hrun : runMaterialsCalls u calls
      (DefineMaterials u pWABSL pEPTFEReflectivity pGdConcentration) = Outcome.ok st)
    (σ : TeflonSurface) :
    PartitionAccepted (st.surface σ).GetMaterialPropertiesTable :=
  PartitionAccepted_of_FlatPartition u st σ
    (runMaterialsCalls_FlatPartition u calls _ st hrun
      (DefineMaterials_FlatPartition u _ _ _) σ)

/-- An outcome that returned normally is the normal return of its own state. -/
theorem Outcome_eq_ok_state {σ : Type} (o : Outcome σ) (h : o.isOk = true) :
    o = Outcome.ok o.state := by
  cases o with
  | ok s => rfl
  | fatal e s => exact Bool.noConfusion h

/-- C9 (amended), on a concrete run from the freshly built tables: a reflectivity override
on the liquid surface, then the combined setter on the gas surface with
(0.25, 0.5, 0.125). -/
theorem C9_partition_sum_witness :
    runMaterialsCalls sampleUnits
        [MaterialsCall.SetLXeTeflonReflectivity 0.5,
          MaterialsCall.SetTeflonReflectivitySpikeLobeBackscatter "GXe" ⟨0.25, 0.5, 0.125⟩]
        (DefineMaterials sampleUnits 1 0.9935 0.2) =
      Outcome.ok (SetTeflonReflectivitySpikeLobeBackscatter sampleUnits "GXe" ⟨0.25, 0.5, 0.125⟩
        (SetLXeTeflonReflectivity sampleUnits 0.5
          (DefineMaterials sampleUnits 1 0.9935 0.2))).state ∧
    PartitionAccepted
      ((SetTeflonReflectivitySpikeLobeBackscatter sampleUnits "GXe" ⟨0.25, 0.5, 0.125⟩
        (SetLXeTeflonReflectivity sampleUnits 0.5
          (DefineMaterials sampleUnits 1 0.9935 0.2))).state.surface
        TeflonSurface.GXeTeflon).GetMaterialPropertiesTable := by
  have hrun : runMaterialsCalls sampleUnits
        [MaterialsCall.SetLXeTeflonReflectivity 0.5,
          MaterialsCall.SetTeflonReflectivitySpikeLobeBackscatter "GXe" ⟨0.25, 0.5, 0.125⟩]
        (DefineMaterials sampleUnits 1 0.9935 0.2) =
      Outcome.ok (SetTeflonReflectivitySpikeLobeBackscatter sampleUnits "GXe" ⟨0.25, 0.5, 0.125⟩
        (SetLXeTeflonReflectivity sampleUnits 0.5
          (DefineMaterials sampleUnits 1 0.9935 0.2))).state := by
    obtain ⟨s', hs, -⟩ :=
      SetTeflonReflectivitySpikeLobeBackscatter_of_accepted sampleUnits TeflonSurface.GXeTeflon
        ⟨0.25, 0.5, 0.125⟩
        (SetLXeTeflonReflectivity sampleUnits 0.5 (DefineMaterials sampleUnits 1 0.9935 0.2))
        computedSum_quarter_half_eighth
    have hs' : SetTeflonReflectivitySpikeLobeBackscatter sampleUnits "GXe" ⟨0.25, 0.5, 0.125⟩
        (SetLXeTeflonReflectivity sampleUnits 0.5 (DefineMaterials sampleUnits 1 0.9935 0.2)) =
        Outcome.ok s' := hs
    simp only [runMaterialsCalls, MaterialsCall.run, Outcome.andThen]
    rw [hs']
    rfl
  exact ⟨hrun, C9_computed_partition_sum_not_above_one sampleUnits 1 0.9935 0.2 _ _ hrun
    TeflonSurface.GXeTeflon⟩

/-- The combined setter, when fatal, hands back the configuration it was given. -/
theorem SetTeflonReflectivitySpikeLobeBackscatter_fatal_state (u : SystemOfUnits)
    (type : String) (p : G4ThreeVector) (self : Xenon1tMaterials)
    (h : (SetTeflonReflectivitySpikeLobeBackscatter u type p self).isFatal = true) :
    (SetTeflonReflectivitySpikeLobeBackscatter u type p self).state = self := by
  by_cases hk : type ∈ knownTags
  · obtain ⟨τ, rfl⟩ := (mem_knownTags_iff type).mp hk
    cases hsum : (computedSum p.x p.y p.z).gt 1 with
    | true =>
      rw [SetTeflonReflectivitySpikeLobeBackscatter_of_exceeds u τ p self hsum]
      rfl
    | false =>
      obtain ⟨s', hs, -⟩ :=
        SetTeflonReflectivitySpikeLobeBackscatter_of_accepted u τ p self hsum
      rw [hs] at h
      exact Bool.noConfusion h
  · rw [SetTeflonReflectivitySpikeLobeBackscatter_unknown u type p self hk]
    rfl

/-- The EM selector, when fatal, hands back the list it was given. -/
theorem SetEMlowEnergyModel_fatal_state (name : String) (self : Xenon1tPhysicsList)
    (h : (SetEMlowEnergyModel name self).isFatal = true) :
    (SetEMlowEnergyModel name self).state = self := by
  unfold SetEMlowEnergyModel at h ⊢
  split_ifs at h ⊢ with h1 h2 h3
  · exact Bool.noConfusion h
  · exact Bool.noConfusion h
  · exact Bool.noConfusion h
  · rfl

/-- The hadronic selector, when fatal, hands back the list it was given. -/
theorem SetHadronicModel_fatal_state (name : String) (self : Xenon1tPhysicsList)
    (h : (SetHadronicModel name self).isFatal = true) :
    (SetHadronicModel name self).state = self := by
  cases hok : (SetHadronicModel name self).isOk with
  | true =>
    rw [Outcome_eq_ok_state _ hok] at h
    exact Bool.noConfusion h
  | false =>
    rw [SetHadronicModel_not_ok name self hok]
    rfl

/-- C10: whenever the combined setter, the EM selector or the hadronic selector is fatal
(unknown surface tag, components summing above 1, unknown model name), the configuration
at the point of failure is exactly the one the call was given: no curve of any surface and
no physics registration has been removed, added or replaced. -/
theorem C10_no_partial_application (u : SystemOfUnits) (type : String) (p : G4ThreeVector)
    (materials : Xenon1tMaterials) (name : String) (list : Xenon1tPhysicsList) :
    ((SetTeflonReflectivitySpikeLobeBackscatter u type p materials).isFatal = true →
      (SetTeflonReflectivitySpikeLobeBackscatter u type p materials).state = materials) ∧
    ((SetEMlowEnergyModel name list).isFatal = true →
      (SetEMlowEnergyModel name list).state = list) ∧
    ((SetHadronicModel name list).isFatal = true →
      (SetHadronicModel name list).state = list) :=
  ⟨SetTeflonReflectivitySpikeLobeBackscatter_fatal_state u type p materials,
   SetEMlowEnergyModel_fatal_state name list,
   SetHadronicModel_fatal_state name list⟩

/-- C10, on concrete failing calls: the tag "LXe" with (0.5, 0.5, 0.5) on the freshly built
tables and the name "bogus" on the freshly constructed list. -/
theorem C10_no_partial_application_witness :
    (SetTeflonReflectivitySpikeLobeBackscatter sampleUnits "LXe" ⟨0.5, 0.5, 0.5⟩
        (DefineMaterials sampleUnits 1 0.9935 0.2)).isFatal = true ∧
    (SetTeflonReflectivitySpikeLobeBackscatter sampleUnits "LXe" ⟨0.5, 0.5, 0.5⟩
        (DefineMaterials sampleUnits 1 0.9935 0.2)).state =
      DefineMaterials sampleUnits 1 0.9935 0.2 ∧
    (SetEMlowEnergyModel "bogus" Xenon1tPhysicsList.construct).isFatal = true ∧
    (SetEMlowEnergyModel "bogus" Xenon1tPhysicsList.construct).state =
      Xenon1tPhysicsList.construct ∧
    (SetHadronicModel "bogus" Xenon1tPhysicsList.construct).isFatal = true ∧
    (SetHadronicModel "bogus" Xenon1tPhysicsList.construct).state =
      Xenon1tPhysicsList.construct := by
  have hfatal : (SetTeflonReflectivitySpikeLobeBackscatter sampleUnits "LXe" ⟨0.5, 0.5, 0.5⟩
      (DefineMaterials sampleUnits 1 0.9935 0.2)).isFatal = true := by
    have hf : SetTeflonReflectivitySpikeLobeBackscatter sampleUnits "LXe" ⟨0.5, 0.5, 0.5⟩
        (DefineMaterials sampleUnits 1 0.9935 0.2) =
        Outcome.fatal sumLargerThanOne (DefineMaterials sampleUnits 1 0.9935 0.2) :=
      SetTeflonReflectivitySpikeLobeBackscatter_of_exceeds sampleUnits TeflonSurface.LXeTeflon
        ⟨0.5, 0.5, 0.5⟩ (DefineMaterials sampleUnits 1 0.9935 0.2)
        computedSum_three_halves
    rw [hf]
    rfl
  have h := C10_no_partial_application sampleUnits "LXe" ⟨0.5, 0.5, 0.5⟩
    (DefineMaterials sampleUnits 1 0.9935 0.2) "bogus" Xenon1tPhysicsList.construct
  exact ⟨hfatal, h.1 hfatal, by decide, h.2.1 (by decide), by decide, h.2.2 (by decide)⟩

/-- C11: the constructor, which takes no argument, registers exactly eleven physics
constructors: optical, hadronic elastic, hadronic inelastic (QGSP_BERT, carrying the
hadron-inelastic type marker), neutron capture, ion elastic, ion inelastic, EM standard,
EM extra, decay, radioactive decay and stopping, every one created with verbosity 0 and
every one registered once. -/
theorem C11_constructor_registers_eleven :
    Xenon1tPhysicsList.construct.physicsVector.map (fun q => q.cls) = constructorClasses ∧
    Xenon1tPhysicsList.construct.physicsVector.length = 11 ∧
    (∀ q ∈ Xenon1tPhysicsList.construct.physicsVector, q.verbose = 0) ∧
    Xenon1tPhysicsList.construct.physicsVector.Nodup ∧
    (Xenon1tPhysicsList.construct.physicsVector.map (fun q => q.cls)).Nodup ∧
    Xenon1tPhysicsList.construct.physicsVector[2]? =
      some { cls := PhysicsClass.G4HadronPhysicsQGSP_BERT, verbose := 0, arg := none,
             typePhysics := G4BuilderType.bHadronInelastic } ∧
    Xenon1tPhysicsList.construct.VerboseLevel = 0 := by
  decide

/-- A reflectivity setter leaves the other three surfaces as they were. -/
theorem reflectivitySetter_other_surface (u : SystemOfUnits) (σ τ : TeflonSurface)
    (v : G4double) (self : Xenon1tMaterials) (h : τ ≠ σ) :
    (reflectivitySetter u σ v self).surface τ = self.surface τ := by
  cases σ <;> cases τ <;> first | rfl | exact absurd rfl h

/-- A reflectivity setter leaves every curve but "REFLECTIVITY" of its own surface as it
was. -/
theorem reflectivitySetter_other_key (u : SystemOfUnits) (σ : TeflonSurface) (v : G4double)
    (self : Xenon1tMaterials) (key : String) (h : key ≠ "REFLECTIVITY") :
    (reflectivitySetter u σ v self).curve σ key = self.curve σ key := by
  cases σ <;>
    simp [reflectivitySetter, SetLXeTeflonReflectivity, SetGXeTeflonReflectivity,
      SetLXeTeflonUnpolishedReflectivity, SetGXeTeflonUnpolishedReflectivity,
      Xenon1tMaterials.curve, Xenon1tMaterials.surface,
      G4OpticalSurface.GetMaterialPropertiesTable, G4OpticalSurface.SetMaterialPropertiesTable,
      G4MaterialPropertiesTable.GetProperty, G4MaterialPropertiesTable.AddProperty,
      G4MaterialPropertiesTable.RemoveProperty, h]

/-- C12: for every value, each of the four reflectivity setters changes nothing but the
"REFLECTIVITY" curve of its own surface: every other curve of that table (refractive index,
absorption length, spike, lobe, backscatter, efficiency, transmittance among them), its
constant properties and the surface's attributes are as before, the other three surfaces
are as before in full, and so are the material and element registries. -/
theorem C12_reflectivity_setter_frame (u : SystemOfUnits) (v : G4double)
    (self : Xenon1tMaterials) :
    reflectivitySetter u TeflonSurface.LXeTeflon = SetLXeTeflonReflectivity u ∧
    reflectivitySetter u TeflonSurface.GXeTeflon = SetGXeTeflonReflectivity u ∧
    reflectivitySetter u TeflonSurface.LXeTeflonUnpolished =
      SetLXeTeflonUnpolishedReflectivity u ∧
    reflectivitySetter u TeflonSurface.GXeTeflonUnpolished =
      SetGXeTeflonUnpolishedReflectivity u ∧
    ∀ σ : TeflonSurface,
      (∀ τ, τ ≠ σ → (reflectivitySetter u σ v self).surface τ = self.surface τ) ∧
      (∀ key, key ≠ "REFLECTIVITY" →
        (reflectivitySetter u σ v self).curve σ key = self.curve σ key) ∧
      (∀ key ∈ ["RINDEX", "ABSLENGTH", "SPECULARSPIKECONSTANT", "SPECULARLOBECONSTANT",
          "BACKSCATTERCONSTANT", "EFFICIENCY", "TRANSMITTANCE"],
        (reflectivitySetter u σ v self).curve σ key = self.curve σ key) ∧
      ((reflectivitySetter u σ v self).surface σ).theMaterialPropertiesTable.MCP =
        (self.surface σ).theMaterialPropertiesTable.MCP ∧
      ((reflectivitySetter u σ v self).surface σ).name = (self.surface σ).name ∧
      ((reflectivitySetter u σ v self).surface σ).model = (self.surface σ).model ∧
      ((reflectivitySetter u σ v self).surface σ).finish = (self.surface σ).finish ∧
      ((reflectivitySetter u σ v self).surface σ).type = (self.surface σ).type ∧
      ((reflectivitySetter u σ v self).surface σ).value = (self.surface σ).value ∧
      (reflectivitySetter u σ v self).materialTable = self.materialTable ∧
      (reflectivitySetter u σ v self).elementTable = self.elementTable := by
  refine ⟨rfl, rfl, rfl, rfl, fun σ => ⟨?_, ?_, ?_, ?_⟩⟩
  · intro τ hτ
    exact reflectivitySetter_other_surface u σ τ v self hτ
  · intro key hkey
    exact reflectivitySetter_other_key u σ v self key hkey
  · intro key hkey
    apply reflectivitySetter_other_key u σ v self key
    intro hk
    subst hk
    revert hkey
    decide
  · cases σ <;> exact ⟨rfl, rfl, rfl, rfl, rfl, rfl, rfl, rfl⟩

/-- C12, on a concrete input: the liquid-xenon setter with value 0.5 on the freshly built
tables leaves the gas-xenon surface and the spike curve of the liquid-xenon surface as they
were. -/
theorem C12_reflectivity_setter_frame_witness :
    (SetLXeTeflonReflectivity sampleUnits 0.5
        (DefineMaterials sampleUnits 1 0.9935 0.2)).pGXeTeflonOpticalSurface =
      (DefineMaterials sampleUnits 1 0.9935 0.2).pGXeTeflonOpticalSurface ∧
    (SetLXeTeflonReflectivity sampleUnits 0.5
        (DefineMaterials sampleUnits 1 0.9935 0.2)).curve TeflonSurface.LXeTeflon
        "SPECULARSPIKECONSTANT" =
      some [(6.91 * sampleUnits.eV, 0.01), (6.98 * sampleUnits.eV, 0.01),
        (7.05 * sampleUnits.eV, 0.01)] :=
  ⟨((C12_reflectivity_setter_frame sampleUnits 0.5
        (DefineMaterials sampleUnits 1 0.9935 0.2)).2.2.2.2 TeflonSurface.LXeTeflon).1
      TeflonSurface.GXeTeflon (by decide),
   (((C12_reflectivity_setter_frame sampleUnits 0.5
        (DefineMaterials sampleUnits 1 0.9935 0.2)).2.2.2.2 TeflonSurface.LXeTeflon).2.1
      "SPECULARSPIKECONSTANT" (by decide)).trans rfl⟩

/-- The three-point grid is strictly increasing as soon as the unit `eV` is positive. -/
theorem overrideGrid_increasing (u : SystemOfUnits) (h : 0 < u.eV) :
    StrictlyIncreasing [6.91 * u.eV, 6.98 * u.eV, 7.05 * u.eV] := by
  unfold StrictlyIncreasing
  rw [← List.chain'_iff_pairwise]
  simp only [List.chain'_cons, List.chain'_singleton, and_true]
  refine ⟨?_, ?_⟩ <;> exact mul_lt_mul_of_pos_right (by norm_num) h

/-- The 32-point grid of air and vacuum is strictly increasing as soon as the unit `eV` is
positive. -/
theorem photonEnergy_increasing (u : SystemOfUnits) (h : 0 < u.eV) :
    StrictlyIncreasing
      [2.034 * u.eV, 2.068 * u.eV, 2.103 * u.eV, 2.139 * u.eV, 2.177 * u.eV, 2.216 * u.eV,
       2.256 * u.eV, 2.298 * u.eV, 2.341 * u.eV, 2.386 * u.eV, 2.433 * u.eV, 2.481 * u.eV,
       2.532 * u.eV, 2.585 * u.eV, 2.640 * u.eV, 2.697 * u.eV, 2.757 * u.eV, 2.820 * u.eV,
       2.885 * u.eV, 2.954 * u.eV, 3.026 * u.eV, 3.102 * u.eV, 3.181 * u.eV, 3.265 * u.eV,
       3.353 * u.eV, 3.446 * u.eV, 3.545 * u.eV, 3.649 * u.eV, 3.760 * u.eV, 3.877 * u.eV,
       4.002 * u.eV, 4.136 * u.eV] := by
  unfold StrictlyIncreasing
  rw [← List.chain'_iff_pairwise]
  simp only [List.chain'_cons, List.chain'_singleton, and_true]
  refine ⟨?_, ?_, ?_, ?_, ?_, ?_, ?_, ?_, ?_, ?_, ?_, ?_, ?_, ?_, ?_, ?_, ?_, ?_, ?_, ?_, ?_,
    ?_, ?_, ?_, ?_, ?_, ?_, ?_, ?_, ?_, ?_⟩ <;>
    exact mul_lt_mul_of_pos_right (by norm_num) h

/-- The empty table has no curve, so all its curves are on increasing grids. -/
theorem GridsIncreasing_empty : GridsIncreasing G4MaterialPropertiesTable.empty := by
  intro key curve hc
  exact Option.noConfusion hc

/-- Adding a curve built on an increasing grid keeps all grids increasing. -/
theorem GridsIncreasing_AddProperty (t : G4MaterialPropertiesTable) (key : String)
    (e v : List G4double) (n : Nat) (ht : GridsIncreasing t)
    (he : StrictlyIncreasing (energiesOf (mkPropertyVector e v n))) :
    GridsIncreasing (t.AddProperty key e v n) := by
  intro k curve hc
  simp only [G4MaterialPropertiesTable.GetProperty, G4MaterialPropertiesTable.AddProperty] at hc
  split_ifs at hc with hk
  · cases hc
    exact he
  · exact ht k curve hc

/-- Adding a curve read from a table whose grids are increasing keeps all grids
increasing. -/
theorem GridsIncreasing_AddPropertyVector (t src : G4MaterialPropertiesTable)
    (key from_key : String) (ht : GridsIncreasing t) (hs : GridsIncreasing src) :
    GridsIncreasing (t.AddPropertyVector key (src.GetProperty from_key)) := by
  intro k curve hc
  simp only [G4MaterialPropertiesTable.GetProperty,
    G4MaterialPropertiesTable.AddPropertyVector] at hc
  split_ifs at hc with hk
  · exact hs from_key curve hc
  · exact ht k curve hc

/-- Adding a constant property does not touch the curves. -/
theorem GridsIncreasing_AddConstProperty (t : G4MaterialPropertiesTable) (key : String)
    (value : G4double) (ht : GridsIncreasing t) :
    GridsIncreasing (t.AddConstProperty key value) := by
  intro k curve hc
  exact ht k curve hc

/-- Removing a curve keeps all remaining grids increasing. -/
theorem GridsIncreasing_RemoveProperty (t : G4MaterialPropertiesTable) (key : String)
    (ht : GridsIncreasing t) : GridsIncreasing (t.RemoveProperty key) := by
  intro k curve hc
  simp only [G4MaterialPropertiesTable.GetProperty, G4MaterialPropertiesTable.RemoveProperty] at hc
  split_ifs at hc with hk
  exact ht k curve hc

/-- A curve built from the three-point grid and three values is given on that grid. -/
theorem energiesOf_three (a b c x y z : G4double) :
    energiesOf (mkPropertyVector [a, b, c] [x, y, z] 3) = [a, b, c] :=
  rfl

/-- Every material table `DefineMaterials` builds has all its curves on increasing grids. -/
theorem DefineMaterials_materials_GridsIncreasing (u : SystemOfUnits) (h : 0 < u.eV)
    (a b c : G4double) :
    ∀ mat ∈ (DefineMaterials u a b c).materialTable, ∀ t, mat.mpt = some t →
      GridsIncreasing t := by
  have h3 := overrideGrid_increasing u h
  have h32 := photonEnergy_increasing u h
  intro mat hmat t ht
  simp only [DefineMaterials, List.mem_cons, List.mem_singleton, List.not_mem_nil,
    or_false] at hmat
  rcases hmat with rfl | rfl | rfl | rfl | rfl | rfl
  all_goals first
    | exact Option.noConfusion ht
    | (cases ht
       repeat' first
         | with_reducible exact GridsIncreasing_empty
         | with_reducible apply GridsIncreasing_AddConstProperty
         | with_reducible apply GridsIncreasing_AddProperty
       all_goals first
         | exact h3
         | exact h32)

/-- Every surface table `DefineMaterials` builds has all its curves on increasing grids. -/
theorem DefineMaterials_surfaces_GridsIncreasing (u : SystemOfUnits) (h : 0 < u.eV)
    (a b c : G4double) (σ : TeflonSurface) :
    GridsIncreasing ((DefineMaterials u a b c).surface σ).GetMaterialPropertiesTable := by
  have h3 := overrideGrid_increasing u h
  cases σ <;>
  · simp only [DefineMaterials, Xenon1tMaterials.surface,
      G4OpticalSurface.GetMaterialPropertiesTable]
    repeat' first
      | with_reducible exact GridsIncreasing_empty
      | with_reducible apply GridsIncreasing_AddPropertyVector
      | with_reducible apply GridsIncreasing_AddProperty
    all_goals exact h3

/-- C13: with a positive unit `eV`, every photon-energy grid a curve is built on is strictly
increasing: in every material table and every surface table `DefineMaterials` builds (the
32-point grid of air and vacuum, the three-point grids of liquid xenon, gas xenon, Teflon
and the four surfaces), and in every curve an override setter writes, which is given on the
three-point grid 6.91, 6.98, 7.05 eV. -/
theorem C13_grids_strictly_increasing (u : SystemOfUnits) (h : 0 < u.eV)
    (pWABSL pEPTFEReflectivity pGdConcentration : G4double) :
    (∀ mat ∈ (DefineMaterials u pWABSL pEPTFEReflectivity pGdConcentration).materialTable,
      ∀ t, mat.mpt = some t → GridsIncreasing t) ∧
    (∀ σ : TeflonSurface, GridsIncreasing
      ((DefineMaterials u pWABSL pEPTFEReflectivity
        pGdConcentration).surface σ).GetMaterialPropertiesTable) ∧
    (PhotonEnergy u).length = 32 ∧ StrictlyIncreasing (PhotonEnergy u) ∧
    ((DefineMaterials u pWABSL pEPTFEReflectivity pGdConcentration).materialCurve
      "G4_AIR" "RINDEX").map energiesOf = some (PhotonEnergy u) ∧
    ((DefineMaterials u pWABSL pEPTFEReflectivity pGdConcentration).materialCurve
      "Vacuum" "RINDEX").map energiesOf = some (PhotonEnergy u) ∧
    (overrideGrid u).length = 3 ∧ StrictlyIncreasing (overrideGrid u) ∧
    (∀ name ∈ ["LXe", "GXe", "Teflon"],
      ((DefineMaterials u pWABSL pEPTFEReflectivity pGdConcentration).materialCurve
        name "RINDEX").map energiesOf = some (overrideGrid u)) ∧
    (∀ σ : TeflonSurface,
      ((DefineMaterials u pWABSL pEPTFEReflectivity pGdConcentration).curve σ
        "TRANSMITTANCE").map energiesOf = some (overrideGrid u)) ∧
    (∀ (σ : TeflonSurface) (v : G4double) (self : Xenon1tMaterials),
      ((reflectivitySetter u σ v self).curve σ "REFLECTIVITY").map energiesOf =
        some (overrideGrid u)) ∧
    (∀ (σ : TeflonSurface) (p : G4ThreeVector) (self s' : Xenon1tMaterials),
      SetTeflonReflectivitySpikeLobeBackscatter u σ.tag p self = Outcome.ok s' →
      ∀ key ∈ partitionKeys, (s'.curve σ key).map energiesOf = some (overrideGrid u)) := by
  refine ⟨DefineMaterials_materials_GridsIncreasing u h _ _ _,
    DefineMaterials_surfaces_GridsIncreasing u h _ _ _, rfl, photonEnergy_increasing u h,
    rfl, rfl, rfl, overrideGrid_increasing u h, ?_, ?_, ?_, ?_⟩
  · intro name hname
    simp only [List.mem_cons, List.mem_singleton, List.not_mem_nil, or_false] at hname
    rcases hname with rfl | rfl | rfl <;> rfl
  · intro σ
    cases σ <;> rfl
  · intro σ v self
    cases σ <;> rfl
  · intro σ p self s' hrun key hkey
    cases hsum : (computedSum p.x p.y p.z).gt 1 with
    | true =>
      rw [SetTeflonReflectivitySpikeLobeBackscatter_of_exceeds u σ p self hsum] at hrun
      exact Outcome.noConfusion hrun
    | false =>
      obtain ⟨s1, hs, h1, h2, h3, -⟩ :=
        SetTeflonReflectivitySpikeLobeBackscatter_of_accepted u σ p self hsum
      rw [hs] at hrun
      cases hrun
      simp only [partitionKeys, List.mem_cons, List.mem_singleton, List.not_mem_nil,
        or_false] at hkey
      rcases hkey with rfl | rfl | rfl
      · rw [h1]; rfl
      · rw [h2]; rfl
      · rw [h3]; rfl

/-- C13, on the sample units, whose `eV` is positive: the 32-point grid and the three-point
grid are strictly increasing, and the refractive-index curve of air is given on the
former. -/
theorem C13_grids_strictly_increasing_witness :
    0 < sampleUnits.eV ∧
    StrictlyIncreasing (PhotonEnergy sampleUnits) ∧
    StrictlyIncreasing (overrideGrid sampleUnits) ∧
    ((DefineMaterials sampleUnits 1 0.9935 0.2).materialCurve "G4_AIR" "RINDEX").map
      energiesOf = some (PhotonEnergy sampleUnits) :=
  ⟨by norm_num [sampleUnits],
   (C13_grids_strictly_increasing sampleUnits (by norm_num [sampleUnits]) 1 0.9935
      0.2).2.2.2.1,
   (C13_grids_strictly_increasing sampleUnits (by norm_num [sampleUnits]) 1 0.9935
      0.2).2.2.2.2.2.2.2.1,
   (C13_grids_strictly_increasing sampleUnits (by norm_num [sampleUnits]) 1 0.9935
      0.2).2.2.2.2.1⟩

/-- C14 (counterexample): the fatal message of the EM selector marks "emlivermore" as the
default, but the one EM low-energy constructor the constructor registers is the standard
one; selecting "emlivermore" directly after construction puts the Livermore builder in its
place, so the list changes, whereas selecting "emstandard" leaves the list as
constructed. -/
theorem C14_registered_em_model_is_not_the_marked_default :
    markedDefault emChoicesMessage = some "emlivermore" ∧
    Xenon1tPhysicsList.construct.physicsVector.filter isEMLowEnergy =
      [G4VPhysicsConstructor.createWith PhysicsClass.G4EmStandardPhysics 0 ""] ∧
    (SetEMlowEnergyModel "emlivermore" Xenon1tPhysicsList.construct).isOk = true ∧
    (SetEMlowEnergyModel "emlivermore"
        Xenon1tPhysicsList.construct).state.physicsVector.filter isEMLowEnergy =
      [G4VPhysicsConstructor.createWith PhysicsClass.G4EmLivermorePhysics 0 ""] ∧
    (SetEMlowEnergyModel "emlivermore" Xenon1tPhysicsList.construct).state ≠
      Xenon1tPhysicsList.construct ∧
    SetEMlowEnergyModel "emstandard" Xenon1tPhysicsList.construct =
      Outcome.ok Xenon1tPhysicsList.construct := by
  refine ⟨by rfl, by decide, by decide, by decide, by decide, by decide⟩

/-- C14 (amended): the EM low-energy model in force when no selector call has been made is
emstandard, the model whose builder the constructor registers: the one EM low-energy
registration of the constructed list is the standard builder, selecting "emstandard"
directly after construction leaves the list exactly as constructed, and "emstandard" is the
only name of which this is true. -/
theorem C14_em_model_in_force_is_emstandard :
    selectedEM [] = EMModel.emstandard ∧
    Xenon1tPhysicsList.construct.physicsVector.filter isEMLowEnergy =
      [EMModel.emstandard.registration] ∧
    EMModel.emstandard.registration =
      G4VPhysicsConstructor.createWith PhysicsClass.G4EmStandardPhysics 0 "" ∧
    (SetEMlowEnergyModel "emstandard"
        Xenon1tPhysicsList.construct).state.physicsVector.filter isEMLowEnergy =
      Xenon1tPhysicsList.construct.physicsVector.filter isEMLowEnergy ∧
    (∀ name : String,
      SetEMlowEnergyModel name Xenon1tPhysicsList.construct =
        Outcome.ok Xenon1tPhysicsList.construct ↔ name = "emstandard") := by
  refine ⟨rfl, by decide, by decide, by decide, ?_⟩
  intro name
  constructor
  · intro h
    unfold SetEMlowEnergyModel at h
    split_ifs at h with h1 h2 h3
    · exact h1
    · exact absurd h (by decide)
    · exact absurd h (by decide)
  · intro h
    subst h
    decide

/-- C15: the result of `DefineMaterials` is the same for every two argument triples; the
reflectivity curve of Teflon and of each of the four Teflon surfaces is 0.99 at every grid
point whatever `pEPTFEReflectivity` is, and the absorption length of liquid xenon is 100 cm
at every grid point whatever `pWABSL` is. -/
theorem C15_DefineMaterials_ignores_its_arguments (u : SystemOfUnits)
    (pWABSL pEPTFEReflectivity pGdConcentration : G4double)
    (pWABSL' pEPTFEReflectivity' pGdConcentration' : G4double) :
    DefineMaterials u pWABSL pEPTFEReflectivity pGdConcentration =
      DefineMaterials u pWABSL' pEPTFEReflectivity' pGdConcentration' ∧
    (DefineMaterials u pWABSL pEPTFEReflectivity pGdConcentration).materialCurve
        "Teflon" "REFLECTIVITY" =
      some [(6.91 * u.eV, 0.99), (6.98 * u.eV, 0.99), (7.05 * u.eV, 0.99)] ∧
    (∀ σ : TeflonSurface,
      (DefineMaterials u pWABSL pEPTFEReflectivity pGdConcentration).curve σ "REFLECTIVITY" =
        some [(6.91 * u.eV, 0.99), (6.98 * u.eV, 0.99), (7.05 * u.eV, 0.99)]) ∧
    (DefineMaterials u pWABSL pEPTFEReflectivity pGdConcentration).materialCurve
        "LXe" "ABSLENGTH" =
      some [(6.91 * u.eV, 100 * u.cm), (6.98 * u.eV, 100 * u.cm), (7.05 * u.eV, 100 * u.cm)] := by
  refine ⟨rfl, rfl, ?_, ?_⟩
  · intro σ
    cases σ <;> rfl
  · have hcurve : (DefineMaterials u pWABSL pEPTFEReflectivity pGdConcentration).materialCurve
          "LXe" "ABSLENGTH" =
        some [(6.91 * u.eV, 100. * u.cm), (6.98 * u.eV, 100. * u.cm),
          (7.05 * u.eV, 100. * u.cm)] := rfl
    rw [hcurve]
    norm_num

/-- C16: the tag "LXe" with spike 2, lobe -1, backscatter -1 (sum 0) returns normally and
stores 2, -1 and -1 as the three curves; on a known tag the combined setter returns normally
exactly when the sum, as the code computes it, is not greater than 1, whatever the single
components are; and each of the four reflectivity setters, whose body raises no exception
and which is therefore a total function of the value and the state, stores every value at
every grid point of its own surface, negative values and values above 1 included. -/
theorem C16_only_the_sum_is_validated (u : SystemOfUnits) (self : Xenon1tMaterials)
    (v : G4double) :
    (∃ s', SetTeflonReflectivitySpikeLobeBackscatter u "LXe" ⟨2, -1, -1⟩ self = Outcome.ok s' ∧
      s'.curve TeflonSurface.LXeTeflon "SPECULARSPIKECONSTANT" =
        some [(6.91 * u.eV, 2), (6.98 * u.eV, 2), (7.05 * u.eV, 2)] ∧
      s'.curve TeflonSurface.LXeTeflon "SPECULARLOBECONSTANT" =
        some [(6.91 * u.eV, -1), (6.98 * u.eV, -1), (7.05 * u.eV, -1)] ∧
      s'.curve TeflonSurface.LXeTeflon "BACKSCATTERCONSTANT" =
        some [(6.91 * u.eV, -1), (6.98 * u.eV, -1), (7.05 * u.eV, -1)]) ∧
    (∀ (σ : TeflonSurface) (p : G4ThreeVector),
      (SetTeflonReflectivitySpikeLobeBackscatter u σ.tag p self).isOk = true ↔
        (computedSum p.x p.y p.z).gt 1 = false) ∧
    (SetLXeTeflonReflectivity u v self).curve TeflonSurface.LXeTeflon "REFLECTIVITY" =
      some [(6.91 * u.eV, v), (6.98 * u.eV, v), (7.05 * u.eV, v)] ∧
    (SetGXeTeflonReflectivity u v self).curve TeflonSurface.GXeTeflon "REFLECTIVITY" =
      some [(6.91 * u.eV, v), (6.98 * u.eV, v), (7.05 * u.eV, v)] ∧
    (SetLXeTeflonUnpolishedReflectivity u v self).curve TeflonSurface.LXeTeflonUnpolished
        "REFLECTIVITY" =
      some [(6.91 * u.eV, v), (6.98 * u.eV, v), (7.05 * u.eV, v)] ∧
    (SetGXeTeflonUnpolishedReflectivity u v self).curve TeflonSurface.GXeTeflonUnpolished
        "REFLECTIVITY" =
      some [(6.91 * u.eV, v), (6.98 * u.eV, v), (7.05 * u.eV, v)] ∧
    (SetLXeTeflonReflectivity u (-1) self).curve TeflonSurface.LXeTeflon "REFLECTIVITY" =
      some [(6.91 * u.eV, -1), (6.98 * u.eV, -1), (7.05 * u.eV, -1)] ∧
    (SetLXeTeflonReflectivity u 2 self).curve TeflonSurface.LXeTeflon "REFLECTIVITY" =
      some [(6.91 * u.eV, 2), (6.98 * u.eV, 2), (7.05 * u.eV, 2)] := by
  refine ⟨?_, ?_, rfl, rfl, rfl, rfl, rfl, rfl⟩
  · obtain ⟨s', hs, h1, h2, h3, -⟩ :=
      SetTeflonReflectivitySpikeLobeBackscatter_of_accepted u TeflonSurface.LXeTeflon
        ⟨2, -1, -1⟩ self computedSum_two_minus_one_minus_one
    exact ⟨s', hs, h1, h2, h3⟩
  · intro σ p
    cases hsum : (computedSum p.x p.y p.z).gt 1 with
    | true =>
      rw [SetTeflonReflectivitySpikeLobeBackscatter_of_exceeds u σ p self hsum]
      simp [Outcome.isOk]
    | false =>
      obtain ⟨s', hs, -⟩ :=
        SetTeflonReflectivitySpikeLobeBackscatter_of_accepted u σ p self hsum
      rw [hs]
      simp [Outcome.isOk]

end LXePETSim
